import Mathlib

set_option maxHeartbeats 1000000

/-!
Shallow embedding, in Lean, of the mojxml-rs converter (MOJ cadastral XML to
FlatGeobuf).  The definitions below translate the Rust sources under `src/`:
`constants.rs`, `error.rs`, `geo.rs`, `parse.rs`, `writer.rs`, `processor.rs`.
XML documents are modelled as already-parsed trees (roxmltree is an external
library); machine floating point coordinates are modelled as rationals, the
proj4rs transform and the geo crate's ear-cut triangulation are modelled as
explicit function parameters, since both are external crates.
-/

namespace Mojxml

/-! ## Numeric string parsing (models str::parse::<f64> and str::parse::<u32>) -/

/-- Numeric value of a digit list, most significant first. -/
def digitsVal (cs : List Char) : Nat :=
  cs.foldl (fun n c => n * 10 + (c.toNat - 48)) 0

/-- Models Rust `str::parse::<u32>`: optional leading plus sign, one or more
ASCII digits, overflow (value at least 2^32) is a failure. -/
def parseU32 (s : String) : Option Nat :=
  let cs := s.toList
  let cs := match cs with
    | '+' :: rest => rest
    | _ => cs
  if !cs.isEmpty && cs.all Char.isDigit then
    let v := digitsVal cs
    if v < 2 ^ 32 then some v else none
  else none

/-- Models Rust `str::parse::<f64>` on the plain decimal forms used by the
cadastral documents: optional sign, digits, optional fractional part.  The
value is kept exact as a rational.  (Exponent, infinity and NaN forms of the
f64 grammar are not modelled; no claim depends on them.) -/
def parseDecimal (s : String) : Option ℚ :=
  let cs := s.toList
  let signed : ℚ × List Char :=
    match cs with
    | '-' :: rest => (-1, rest)
    | '+' :: rest => (1, rest)
    | _ => (1, cs)
  let sign := signed.1
  let body := signed.2
  let intPart := body.takeWhile Char.isDigit
  let rest := body.dropWhile Char.isDigit
  match rest with
  | [] =>
    if intPart.isEmpty then none
    else some (sign * (digitsVal intPart : ℚ))
  | '.' :: frac =>
    if frac.all Char.isDigit && (!intPart.isEmpty || !frac.isEmpty) then
      some (sign * ((digitsVal intPart : ℚ) + (digitsVal frac : ℚ) / (10 ^ frac.length)))
    else none
  | _ => none

/-! ## XML tree model (documents as parsed by roxmltree) -/

/-- An XML node: either an element (tag local name, namespace URI, attributes,
children in document order) or a text node. -/
inductive XNode : Type where
  | elem (tag : String) (ns : Option String) (attrs : List (String × String)) (children : List XNode)
  | txt (s : String)
deriving Repr

/-- Local tag name; the empty string for text nodes (as in roxmltree). -/
def XNode.tagName : XNode → String
  | .elem t _ _ _ => t
  | .txt _ => ""

/-- Namespace URI of the node's tag name. -/
def XNode.nsName : XNode → Option String
  | .elem _ n _ _ => n
  | .txt _ => none

def XNode.isElement : XNode → Bool
  | .elem _ _ _ _ => true
  | .txt _ => false

/-- Child nodes in document order (elements and text nodes). -/
def XNode.childNodes : XNode → List XNode
  | .elem _ _ _ cs => cs
  | .txt _ => []

/-- Value of the attribute with the given name. -/
def XNode.attr (n : XNode) (name : String) : Option String :=
  match n with
  | .elem _ _ attrs _ => (attrs.find? (fun p => p.1 == name)).map Prod.snd
  | .txt _ => none

/-- Models roxmltree `Node::text` on elements: the content of the first child
when that child is a text node. -/
def XNode.textOf : XNode → Option String
  | .elem _ _ _ cs =>
    match cs.head? with
    | some (.txt s) => some s
    | _ => none
  | .txt _ => none

/-- First child that is an element (roxmltree `first_element_child`). -/
def XNode.firstElementChild (n : XNode) : Option XNode :=
  n.childNodes.find? XNode.isElement

mutual

/-- The node itself followed by all its descendant nodes in document order
(roxmltree `descendants`). -/
def XNode.descendants : XNode → List XNode
  | .txt s => [XNode.txt s]
  | .elem t n a cs => XNode.elem t n a cs :: XNode.descendantsList cs

def XNode.descendantsList : List XNode → List XNode
  | [] => []
  | c :: cs => c.descendants ++ XNode.descendantsList cs

end

/-! ## Errors (error.rs) -/

/-- The error enum of `error.rs`.  `ParseInt` models the conversion of a
`std::num::ParseIntError` raised by `str::parse::<u32>` behind a `?`. -/
inductive Error : Type where
  | Xml : Error
  | Encoding : Error
  | Coordinate : String → Error
  | MissingElement : String → Error
  | InvalidAttribute : String → Error
  | UnsupportedCrs : String → Error
  | MissingNamespace : String → Error
  | NotAnElement : Error
  | MissingAttribute : String → String → Error
  | ParseFloat : String → Error
  | ParseInt : String → Error
  | PointNotFound : String → Error
  | UnexpectedElement : String → Error
  | Projection : String → Error
deriving Repr, DecidableEq

/-- Outcome kind of a Rust call: an `Err` return value, or a panic that
unwinds out of the function (`expect`/`unwrap`). -/
inductive PErr : Type where
  | err : Error → PErr
  | panicMsg : String → PErr
deriving Repr, DecidableEq

/-- Result type of the parsing pipeline: value, `Err`, or panic. -/
abbrev PRes (α : Type) := Except PErr α

/-- Lift an `Err`-only result into the panic-aware result type. -/
def liftE {α : Type} : Except Error α → PRes α
  | .ok a => .ok a
  | .error e => .error (.err e)

/-! ## Geometry model (geo_types, over exact rationals) -/

/-- A planar coordinate pair (geo_types `Point`/`Coord`). -/
structure Pt where
  x : ℚ
  y : ℚ
deriving Repr, DecidableEq

/-- A ring of coordinates (geo_types `LineString`). -/
abbrev Ring := List Pt

/-- A polygon: exterior ring plus interior (hole) rings. -/
structure Polygon where
  exterior : Ring
  interiors : List Ring
deriving Repr, DecidableEq

/-- A multi-polygon (geo_types `MultiPolygon`). -/
structure MultiPolygon where
  polygons : List Polygon
deriving Repr, DecidableEq

/-- A triangle (geo `Triangle`). -/
structure Triangle where
  v0 : Pt
  v1 : Pt
  v2 : Pt
deriving Repr, DecidableEq

/-- Twice the signed shoelace sum of a ring, closing edge included. -/
def ringCross (r : Ring) : ℚ :=
  (r.zip (r.rotate 1)).foldl (fun a pq => a + (pq.1.x * pq.2.y - pq.2.x * pq.1.y)) 0

/-- Unsigned shoelace area of one ring. -/
def ringArea (r : Ring) : ℚ := |ringCross r| / 2

/-- Models the geo crate's `Area::unsigned_area` for a polygon (external
library): area of the exterior ring minus the areas of the holes.  It is used
only to select the largest polygon / triangle, so only its type matters to the
claims, not its exact value. -/
def Polygon.unsignedArea (p : Polygon) : ℚ :=
  ringArea p.exterior - (p.interiors.map ringArea).sum

/-- Unsigned area of a triangle. -/
def Triangle.unsignedArea (t : Triangle) : ℚ :=
  |((t.v1.x - t.v0.x) * (t.v2.y - t.v0.y) - (t.v2.x - t.v0.x) * (t.v1.y - t.v0.y))| / 2

/-- Centroid of a triangle (geo `Centroid` on `Triangle`). -/
def Triangle.centroid (t : Triangle) : Pt :=
  ⟨(t.v0.x + t.v1.x + t.v2.x) / 3, (t.v0.y + t.v1.y + t.v2.y) / 3⟩

/-- Models Rust `Iterator::max_by` (with a total comparison): the last element
attaining the maximum key, `none` on an empty list. -/
def maxByLast {α : Type} (f : α → ℚ) (l : List α) : Option α :=
  l.foldl
    (fun acc x =>
      match acc with
      | none => some x
      | some m => if f m ≤ f x then some x else some m)
    none

/-- Translation of `geo.rs::point_on_surface`.  The ear-cut triangulation of
the geo crate is an external library and is passed in as the parameter `tri`.
The two `expect` calls are modelled as `.error` with the panic message. -/
def point_on_surface (tri : Polygon → List Triangle) (mp : MultiPolygon) : Except String Pt := do
  let some polygon := maxByLast Polygon.unsignedArea mp.polygons
    | throw "MultiPolygon must have at least one Polygon"
  let triangles := tri polygon
  let some largest := maxByLast Triangle.unsignedArea triangles
    | throw "polygon must have at least one triangle"
  pure largest.centroid

/-! ## String-keyed maps (std::collections::HashMap, last write wins) -/

/-- Lookup in an association list; the most recent insertion is found first,
matching `HashMap::get` after overwriting inserts. -/
def mapGet {α : Type} (m : List (String × α)) (k : String) : Option α :=
  (m.find? (fun p => p.1 == k)).map Prod.snd

/-- Insertion by prepending; together with `mapGet`'s first-match rule this
models `HashMap::insert`'s overwrite semantics. -/
def mapInsert {α : Type} (m : List (String × α)) (k : String) (v : α) : List (String × α) :=
  (k, v) :: m

/-! ## Constants (constants.rs) -/

/-- The `PROJ_STRS` table of `constants.rs`: coordinate-system display names
and their proj parameter strings. -/
def PROJ_STRS : List (String × String) := [
  ("WGS84", "+proj=longlat +ellps=WGS84 +datum=WGS84 +no_defs"),
  ("公共座標1系", "+proj=tmerc +lat_0=33 +lon_0=129.5 +k=0.9999 +x_0=0 +y_0=0 +ellps=GRS80 +towgs84=0,0,0,0,0,0,0 +units=m +no_defs +type=crs"),
  ("公共座標2系", "+proj=tmerc +lat_0=33 +lon_0=131 +k=0.9999 +x_0=0 +y_0=0 +ellps=GRS80 +towgs84=0,0,0,0,0,0,0 +units=m +no_defs +type=crs"),
  ("公共座標3系", "+proj=tmerc +lat_0=36 +lon_0=132.166666666667 +k=0.9999 +x_0=0 +y_0=0 +ellps=GRS80 +towgs84=0,0,0,0,0,0,0 +units=m +no_defs +type=crs"),
  ("公共座標4系", "+proj=tmerc +lat_0=33 +lon_0=133.5 +k=0.9999 +x_0=0 +y_0=0 +ellps=GRS80 +towgs84=0,0,0,0,0,0,0 +units=m +no_defs +type=crs"),
  ("公共座標5系", "+proj=tmerc +lat_0=36 +lon_0=134.333333333333 +k=0.9999 +x_0=0 +y_0=0 +ellps=GRS80 +towgs84=0,0,0,0,0,0,0 +units=m +no_defs +type=crs"),
  ("公共座標6系", "+proj=tmerc +lat_0=36 +lon_0=136 +k=0.9999 +x_0=0 +y_0=0 +ellps=GRS80 +towgs84=0,0,0,0,0,0,0 +units=m +no_defs +type=crs"),
  ("公共座標7系", "+proj=tmerc +lat_0=36 +lon_0=137.166666666667 +k=0.9999 +x_0=0 +y_0=0 +ellps=GRS80 +towgs84=0,0,0,0,0,0,0 +units=m +no_defs +type=crs"),
  ("公共座標8系", "+proj=tmerc +lat_0=36 +lon_0=138.5 +k=0.9999 +x_0=0 +y_0=0 +ellps=GRS80 +towgs84=0,0,0,0,0,0,0 +units=m +no_defs +type=crs"),
  ("公共座標9系", "+proj=tmerc +lat_0=36 +lon_0=139.833333333333 +k=0.9999 +x_0=0 +y_0=0 +ellps=GRS80 +towgs84=0,0,0,0,0,0,0 +units=m +no_defs +type=crs"),
  ("公共座標10系", "+proj=tmerc +lat_0=40 +lon_0=140.833333333333 +k=0.9999 +x_0=0 +y_0=0 +ellps=GRS80 +towgs84=0,0,0,0,0,0,0 +units=m +no_defs +type=crs"),
  ("公共座標11系", "+proj=tmerc +lat_0=44 +lon_0=140.25 +k=0.9999 +x_0=0 +y_0=0 +ellps=GRS80 +towgs84=0,0,0,0,0,0,0 +units=m +no_defs +type=crs"),
  ("公共座標12系", "+proj=tmerc +lat_0=44 +lon_0=142.25 +k=0.9999 +x_0=0 +y_0=0 +ellps=GRS80 +towgs84=0,0,0,0,0,0,0 +units=m +no_defs +type=crs"),
  ("公共座標13系", "+proj=tmerc +lat_0=44 +lon_0=144.25 +k=0.9999 +x_0=0 +y_0=0 +ellps=GRS80 +towgs84=0,0,0,0,0,0,0 +units=m +no_defs +type=crs"),
  ("公共座標14系", "+proj=tmerc +lat_0=26 +lon_0=142 +k=0.9999 +x_0=0 +y_0=0 +ellps=GRS80 +towgs84=0,0,0,0,0,0,0 +units=m +no_defs +type=crs"),
  ("公共座標15系", "+proj=tmerc +lat_0=26 +lon_0=127.5 +k=0.9999 +x_0=0 +y_0=0 +ellps=GRS80 +towgs84=0,0,0,0,0,0,0 +units=m +no_defs +type=crs"),
  ("公共座標16系", "+proj=tmerc +lat_0=26 +lon_0=124 +k=0.9999 +x_0=0 +y_0=0 +ellps=GRS80 +towgs84=0,0,0,0,0,0,0 +units=m +no_defs +type=crs"),
  ("公共座標17系", "+proj=tmerc +lat_0=26 +lon_0=131 +k=0.9999 +x_0=0 +y_0=0 +ellps=GRS80 +towgs84=0,0,0,0,0,0,0 +units=m +no_defs +type=crs"),
  ("公共座標18系", "+proj=tmerc +lat_0=20 +lon_0=136 +k=0.9999 +x_0=0 +y_0=0 +ellps=GRS80 +towgs84=0,0,0,0,0,0,0 +units=m +no_defs +type=crs"),
  ("公共座標19系", "+proj=tmerc +lat_0=26 +lon_0=154 +k=0.9999 +x_0=0 +y_0=0 +ellps=GRS80 +towgs84=0,0,0,0,0,0,0 +units=m +no_defs +type=crs")]

/-- Translation of `constants.rs::get_proj`.  A `Proj` value is modelled by
its proj parameter string (`Proj::from_proj_string` is an external library
call that cannot fail on the table's strings, per the source comment). -/
def get_proj (name : String) : Except Error (Option String) :=
  if name = "任意座標系" then .ok none
  else
    match mapGet PROJ_STRS name with
    | some s => .ok (some s)
    | none => .error (.UnsupportedCrs name)

/-- Translation of `constants.rs::get_xml_namespace`. -/
def get_xml_namespace (p : Option String) : Option String :=
  match p with
  | none => some "http://www.moj.go.jp/MINJI/tizuxml"
  | some "zmn" => some "http://www.moj.go.jp/MINJI/tizuzumen"
  | some "xsi" => some "http://www.w3.org/2001/XMLSchema-instance"
  | some _ => none

/-! ## Parsing helpers (parse.rs) -/

/-- Translation of `parse.rs::get_child_element`: first child whose local tag
name matches (no namespace check, text children have the empty tag name). -/
def get_child_element (node : XNode) (name : String) : Except Error XNode :=
  match node.childNodes.find? (fun c => c.tagName == name) with
  | some c => .ok c
  | none => .error (.MissingElement name)

/-- A `str::parse::<f64>` call behind `?`: failure becomes `Error::ParseFloat`. -/
def parseFloatE (s : String) : Except Error ℚ :=
  match parseDecimal s with
  | some v => .ok v
  | none => .error (.ParseFloat s)

/-- The X/Y scanning loop of `parse_points`: each `X` (resp. `Y`) child is
parsed immediately — with `text().unwrap_or("0")` substituting `"0"` for
missing text — and overwrites the previously seen value. -/
def scanDirectXY (acc : Option ℚ × Option ℚ) : List XNode → Except Error (Option ℚ × Option ℚ)
  | [] => .ok acc
  | c :: rest =>
    if c.tagName = "X" then do
      let v ← parseFloatE ((c.textOf).getD "0")
      scanDirectXY (some v, acc.2) rest
    else if c.tagName = "Y" then do
      let v ← parseFloatE ((c.textOf).getD "0")
      scanDirectXY (acc.1, some v) rest
    else
      scanDirectXY acc rest

/-- The body of the `parse_points` loop for one `GM_Point` element. -/
def parsePointOne (point : XNode) : Except Error (String × Pt) := do
  let some pos := point.descendants.find?
      (fun c => c.tagName == "DirectPosition" && c.nsName == get_xml_namespace (some "zmn"))
    | throw (Error.MissingElement "pos")
  let xy ← scanDirectXY (none, none) pos.childNodes
  let some x := xy.1 | throw (Error.MissingElement "X")
  let some y := xy.2 | throw (Error.MissingElement "Y")
  let some pointId := point.attr "id" | throw (Error.MissingAttribute "GM_Point" "id")
  pure (pointId, ⟨x, y⟩)

/-- Translation of `parse.rs::parse_points`. -/
def parse_points (spatial : XNode) : Except Error (List (String × Pt)) :=
  (spatial.childNodes.filter
      (fun c => c.tagName == "GM_Point" && c.nsName == get_xml_namespace (some "zmn"))).foldlM
    (fun acc p => do
      let kv ← parsePointOne p
      pure (mapInsert acc kv.1 kv.2))
    []

/-- The segment/column/position navigation of the `parse_curves` loop body. -/
def find_pos (curve : XNode) : Except Error XNode := do
  let some segment := curve.childNodes.find?
      (fun c => c.tagName == "GM_Curve.segment" && c.nsName == get_xml_namespace (some "zmn"))
    | throw (Error.MissingElement "GM_Curve.segment")
  let some column := segment.descendants.find?
      (fun c => c.tagName == "GM_PointArray.column" && c.nsName == get_xml_namespace (some "zmn"))
    | throw (Error.MissingElement "GM_PointArray.column")
  let some pos := column.firstElementChild
    | throw (Error.MissingElement "GM_Position.*")
  pure pos

/-- The `let (x, y) = if ... else ...` binding of the `parse_curves` loop
body: the curve position in source declaration order, with no axis swap.
Direct positions read the `X` and `Y` children as written; indirect positions
return the referenced point's stored coordinates. -/
def curve_pos_xy (points : List (String × Pt)) (pos : XNode) : Except Error (ℚ × ℚ) :=
  if pos.tagName = "GM_Position.indirect" then do
    let some r := pos.firstElementChild | throw (Error.MissingElement "GM_Position.indirect")
    let some idref := r.attr "idref"
      | throw (Error.MissingAttribute "GM_Position.indirect" "idref")
    let some point := mapGet points idref | throw (Error.PointNotFound idref)
    pure (point.x, point.y)
  else if pos.tagName = "GM_Position.direct" then do
    let some xn := pos.childNodes.find? (fun c => c.tagName == "X")
      | throw (Error.MissingElement "X")
    let some xs := xn.textOf | throw (Error.MissingElement "X")
    let x ← parseFloatE xs
    let some yn := pos.childNodes.find? (fun c => c.tagName == "Y")
      | throw (Error.MissingElement "Y")
    let some ys := yn.textOf | throw (Error.MissingElement "Y")
    let y ← parseFloatE ys
    pure (x, y)
  else
    throw (Error.UnexpectedElement pos.tagName)

/-- The body of the `parse_curves` loop for one `GM_Curve` element.  The
stored coordinate is `Curve::new(y, x)`: the declared axes are swapped. -/
def parseCurveOne (points : List (String × Pt)) (curve : XNode) : Except Error (String × Pt) := do
  let some curveId := curve.attr "id" | throw (Error.MissingAttribute "GM_Curve" "id")
  let pos ← find_pos curve
  let xy ← curve_pos_xy points pos
  pure (curveId, ⟨xy.2, xy.1⟩)

/-- Translation of `parse.rs::parse_curves`. -/
def parse_curves (spatial : XNode) (points : List (String × Pt)) :
    Except Error (List (String × Pt)) :=
  (spatial.childNodes.filter
      (fun c => c.tagName == "GM_Curve" && c.nsName == get_xml_namespace (some "zmn"))).foldlM
    (fun acc c => do
      let kv ← parseCurveOne points c
      pure (mapInsert acc kv.1 kv.2))
    []

/-- The multiplier of `f64::to_degrees` (180/π as the IEEE double constant);
the exact value of the constant is immaterial to the claims. -/
def degPerRad : ℚ := 57.29577951308232

/-- Translation of `parse.rs::transform_curves_crs`.  The proj4rs coordinate
transform is an external library, passed in as `T` (source proj string,
target proj string, coordinate pair); it is fallible, and the `?` on the
transform call turns its failure into `Error::Projection`, aborting the loop
at the first failing curve.  On success the pair is in radians, converted to
degrees and stored back in place. -/
def transform_curves_crs (T : String → String → ℚ × ℚ → Except String (ℚ × ℚ))
    (src tgt : String) : List (String × Pt) → Except Error (List (String × Pt))
  | [] => .ok []
  | kv :: rest => do
    let p ←
      match T src tgt (kv.2.x, kv.2.y) with
      | .ok p => Except.ok p
      | .error m => Except.error (Error.Projection m)
    let tail ← transform_curves_crs T src tgt rest
    pure ((kv.1, ⟨p.1 * degPerRad, p.2 * degPerRad⟩) :: tail)

/-- The `polygons` collection of the `parse_surfaces` loop body followed by
`.first()`: all `GM_Polygon` children of all `GM_Surface.patch` children, in
order, reduced to the first one. -/
def firstPolygonOf (surface : XNode) : Option XNode :=
  ((surface.childNodes.filter
      (fun c => c.tagName == "GM_Surface.patch" && c.nsName == get_xml_namespace (some "zmn"))).flatMap
    (fun patch => patch.childNodes.filter
      (fun c => c.tagName == "GM_Polygon" && c.nsName == get_xml_namespace (some "zmn")))).head?

/-- The curve references of one boundary node: element children of every
`GM_Ring` descendant, in order. -/
def ringRefs (boundary : XNode) : List XNode :=
  (boundary.descendants.filter
      (fun c => c.tagName == "GM_Ring" && c.nsName == get_xml_namespace (some "zmn"))).flatMap
    (fun r => r.childNodes.filter XNode.isElement)

/-- One ring-building loop of `parse_surfaces`: dereference every curve
reference of the boundary in order. -/
def buildRing (curves : List (String × Pt)) (boundary : XNode) : Except Error Ring :=
  (ringRefs boundary).foldlM
    (fun acc cc => do
      let some curveId := cc.attr "idref"
        | throw (Error.MissingAttribute cc.tagName "idref")
      let some curve := mapGet curves curveId | throw (Error.PointNotFound curveId)
      pure (acc ++ [curve]))
    []

/-- The interior-boundary nodes of a polygon: element children of every
`GM_SurfaceBoundary.interior` descendant. -/
def interiorNodes (polygon : XNode) : List XNode :=
  (polygon.descendants.filter
      (fun c => c.tagName == "GM_SurfaceBoundary.interior"
        && c.nsName == get_xml_namespace (some "zmn"))).flatMap
    (fun b => b.childNodes.filter XNode.isElement)

/-- The body of the `parse_surfaces` loop for one `GM_Surface` element. -/
def parseSurfaceOne (curves : List (String × Pt)) (surface : XNode) :
    Except Error (String × MultiPolygon) := do
  let some polygon := firstPolygonOf surface
    | throw (Error.MissingElement "GM_Surface.patch")
  let some surfaceId := surface.attr "id" | throw (Error.MissingAttribute "GM_Surface" "id")
  let some ext := polygon.descendants.find?
      (fun c => c.tagName == "GM_SurfaceBoundary.exterior"
        && c.nsName == get_xml_namespace (some "zmn"))
    | throw (Error.MissingElement "GM_SurfaceBoundary.exterior")
  let exteriorRing ← buildRing curves ext
  let interiorRings ← (interiorNodes polygon).foldlM
    (fun acc i => do
      let r ← buildRing curves i
      pure (acc ++ [r]))
    []
  pure (surfaceId, ⟨[⟨exteriorRing, interiorRings⟩]⟩)

/-- Translation of `parse.rs::parse_surfaces`. -/
def parse_surfaces (spatial : XNode) (curves : List (String × Pt)) :
    Except Error (List (String × MultiPolygon)) :=
  (spatial.childNodes.filter
      (fun c => c.tagName == "GM_Surface" && c.nsName == get_xml_namespace (some "zmn"))).foldlM
    (fun acc s => do
      let kv ← parseSurfaceOne curves s
      pure (mapInsert acc kv.1 kv.2))
    []

/-! ## Feature records (parse.rs) -/

/-- The per-parcel property record (`FeatureProperties`); `u32` fields are
modelled as `Nat` (their parser already enforces the 2^32 bound). -/
structure FeatureProperties where
  «地図名» : String
  «市区町村コード» : Nat
  «市区町村名» : String
  «座標系» : String
  «測地系判別» : Option String
  «筆id» : String
  «精度区分» : Option String
  «大字コード» : Option Nat
  «丁目コード» : Option Nat
  «小字コード» : Option Nat
  «予備コード» : Option Nat
  «大字名» : Option String
  «丁目名» : Option String
  «小字名» : Option String
  «予備名» : Option String
  «地番» : Option String
  «座標値種別» : Option String
  «筆界未定構成筆» : Option String
  «代表点緯度» : ℚ
  «代表点経度» : ℚ
deriving Repr, DecidableEq

/-- One output parcel record (`Feature`). -/
structure Feature where
  geometry : MultiPolygon
  props : FeatureProperties
deriving Repr, DecidableEq

/-- Document-level common properties (`CommonProperties`). -/
structure CommonProperties where
  «地図名» : String
  «市区町村コード» : Nat
  «市区町村名» : String
  «座標系» : String
  «測地系判別» : Option String
deriving Repr, DecidableEq

/-- Parse options (`ParseOptions`). -/
structure ParseOptions where
  include_arbitrary_crs : Bool
  include_chikugai : Bool
deriving Repr, DecidableEq

/-- Contiguous sublist test: does `pat` occur inside `l`? -/
def subListOf (pat : List Char) : List Char → Bool
  | [] => pat.isEmpty
  | a :: tl => pat.isPrefixOf (a :: tl) || subListOf pat tl

/-- Substring containment, models Rust `str::contains` on a string pattern. -/
def containsSub (s pat : String) : Bool :=
  subListOf pat.toList s.toList

/-- The entry-collection loop of the `parse_features` body: walk the element
children of a parcel; a `形状` entry replaces the geometry by the surface-map
lookup of its `idref` (possibly `none` again if the reference dangles); every
other entry inserts its tag name and text (empty string when absent) into the
property map. -/
def collectFudeEntries (surfaces : List (String × MultiPolygon)) (fude : XNode) :
    Except Error (Option MultiPolygon × List (String × String)) :=
  (fude.childNodes.filter XNode.isElement).foldlM
    (fun acc entry =>
      if entry.tagName = "形状" then do
        let some idref := entry.attr "idref"
          | throw (Error.MissingAttribute "形状" "idref")
        pure (mapGet surfaces idref, acc.2)
      else
        pure (acc.1, mapInsert acc.2 entry.tagName ((entry.textOf).getD "")))
    (none, [])

/-- The body of the `parse_features` loop for one `筆` element: `.ok none`
means the parcel was skipped by the chikugai filter (the `continue`), `.ok
(some f)` an emitted record.  `point_on_surface` panics surface as
`PErr.panicMsg`. -/
def parseFude (tri : Polygon → List Triangle) (surfaces : List (String × MultiPolygon))
    (common : CommonProperties) (options : ParseOptions) (fude : XNode) :
    PRes (Option Feature) := do
  let some fudeId := fude.attr "id"
    | throw (PErr.err (Error.MissingAttribute "筆" "id"))
  let gp ← liftE (collectFudeEntries surfaces fude)
  let skip ←
    if !options.include_chikugai then do
      let some chiban := mapGet gp.2 "地番"
        | throw (PErr.err (Error.MissingElement "地番"))
      pure (containsSub chiban "地区外" || containsSub chiban "別図")
    else
      pure false
  if skip then
    pure none
  else do
    let some geometry := gp.1 | throw (PErr.err (Error.MissingElement "geometry"))
    let point ←
      match point_on_surface tri geometry with
      | .ok p => pure p
      | .error msg => throw (PErr.panicMsg msg)
    pure (some
      { geometry := geometry
        props :=
          { «地図名» := common.«地図名»
            «市区町村コード» := common.«市区町村コード»
            «市区町村名» := common.«市区町村名»
            «座標系» := common.«座標系»
            «測地系判別» := common.«測地系判別»
            «筆id» := fudeId
            «精度区分» := mapGet gp.2 "精度区分"
            «大字コード» := (mapGet gp.2 "大字コード").bind parseU32
            «丁目コード» := (mapGet gp.2 "丁目コード").bind parseU32
            «小字コード» := (mapGet gp.2 "小字コード").bind parseU32
            «予備コード» := (mapGet gp.2 "予備コード").bind parseU32
            «大字名» := mapGet gp.2 "大字名"
            «丁目名» := mapGet gp.2 "丁目名"
            «小字名» := mapGet gp.2 "小字名"
            «予備名» := mapGet gp.2 "予備名"
            «地番» := mapGet gp.2 "地番"
            «座標値種別» := mapGet gp.2 "座標値種別"
            «筆界未定構成筆» := mapGet gp.2 "筆界未定構成筆"
            «代表点緯度» := point.y
            «代表点経度» := point.x } })

/-- Translation of `parse.rs::parse_features`. -/
def parse_features (tri : Polygon → List Triangle) (subject : XNode)
    (surfaces : List (String × MultiPolygon)) (common : CommonProperties)
    (options : ParseOptions) : PRes (List Feature) :=
  (subject.childNodes.filter
      (fun c => c.tagName == "筆" && c.nsName == get_xml_namespace none)).foldlM
    (fun acc f => do
      match ← parseFude tri surfaces common options f with
      | some feat => pure (acc ++ [feat])
      | none => pure acc)
    []

/-- A `str::parse::<u32>` call behind `?`. -/
def parseU32E (s : String) : Except Error Nat :=
  match parseU32 s with
  | some v => .ok v
  | none => .error (.ParseInt s)

/-- Text of a named child element, as in
`get_child_element(root, name)?.text().ok_or(MissingElement(name))`. -/
def textOfE (root : XNode) (name : String) : Except Error String := do
  let e ← get_child_element root name
  let some t := e.textOf | throw (Error.MissingElement name)
  pure t

/-- Translation of `parse.rs::parse_common_properties`.  The
`crs_det_elem.text().unwrap()` call panics when the `測地系判別` element is
present with no text, hence the panic-aware result type. -/
def parse_common_properties (root : XNode) : PRes CommonProperties := do
  let mapName ← liftE (textOfE root "地図名")
  let cityCode ← liftE (textOfE root "市区町村コード")
  let cityName ← liftE (textOfE root "市区町村名")
  let crs ← liftE (textOfE root "座標系")
  let crsDet ←
    match get_child_element root "測地系判別" with
    | .ok e =>
      match e.textOf with
      | some t => pure (some t)
      | none => throw (PErr.panicMsg "called Option::unwrap on a None value")
    | .error _ => pure (none : Option String)
  let code ← liftE (parseU32E cityCode)
  pure
    { «地図名» := mapName
      «市区町村コード» := code
      «市区町村名» := cityName
      «座標系» := crs
      «測地系判別» := crsDet }

/-- Input document handed to the parser: the file name and the roxmltree
parse outcome of its contents (`none` models a malformed document on which
`Document::parse` fails). -/
structure FileData where
  file_name : String
  root : Option XNode

/-- Parsed document result (`ParsedXML`). -/
structure ParsedXML where
  file_name : String
  features : List Feature
deriving Repr, DecidableEq

/-- Translation of `parse.rs::parse_xml_content`.  `tri` is the external
ear-cut triangulation, `T` the external proj4rs transform. -/
def parse_xml_content (tri : Polygon → List Triangle)
    (T : String → String → ℚ × ℚ → Except String (ℚ × ℚ))
    (file : FileData) (options : ParseOptions) :
    PRes ParsedXML := do
  let fileName := file.file_name
  let some root := file.root | throw (PErr.err Error.Xml)
  let commonProps ← parse_common_properties root
  let crsString ← liftE (textOfE root "座標系")
  let crs ← liftE (get_proj crsString)
  if crs.isNone && !options.include_arbitrary_crs then
    pure ⟨fileName, []⟩
  else do
    let spatial ← liftE (get_child_element root "空間属性")
    let points ← liftE (parse_points spatial)
    let curvesRaw ← liftE (parse_curves spatial points)
    let curves ←
      match crs with
      | some c => do
        let tgtOpt ← liftE (get_proj "WGS84")
        let some tgt := tgtOpt | throw (PErr.panicMsg "WGS84 CRS not found")
        liftE (transform_curves_crs T c tgt curvesRaw)
      | none => pure curvesRaw
    let surfaces ← liftE (parse_surfaces spatial curves)
    let subject ← liftE (get_child_element root "主題属性")
    let features ← parse_features tri subject surfaces commonProps options
    pure ⟨fileName, features⟩

/-! ## Columnar writer model (writer.rs) -/

/-- The only I/O failure the file-system model distinguishes: removal of a
missing file (`std::io::ErrorKind::NotFound`).  Other OS failures are outside
the model. -/
inductive IoErrorKind : Type where
  | NotFound : IoErrorKind
deriving Repr, DecidableEq

/-- File-system state: path to serialized record content. -/
structure FS where
  files : List (String × List Feature)
deriving Repr, DecidableEq

/-- Create or truncate a file with the given content. -/
def fsWrite (fs : FS) (path : String) (content : List Feature) : FS :=
  ⟨(path, content) :: fs.files.filter (fun p => p.1 != path)⟩

/-- Content of a file, if present. -/
def fsRead (fs : FS) (path : String) : Option (List Feature) :=
  mapGet fs.files path

/-- Models `std::fs::remove_file`: fails with `NotFound` when the path is
absent. -/
def fsRemoveFile (fs : FS) (path : String) : Except IoErrorKind FS :=
  if (fs.files.find? (fun p => p.1 == path)).isSome then
    .ok ⟨fs.files.filter (fun p => p.1 != path)⟩
  else
    .error .NotFound

/-- The writer state (`FGBWriter`): output path, buffered records (the
accumulated FlatGeobuf feature buffers), and the `has_features` flag. -/
structure FGBWriter where
  output_path : String
  buffer : List Feature
  has_features : Bool
deriving Repr, DecidableEq

/-- Translation of `FGBWriter::new`: `File::create` makes (or truncates) the
output file immediately; the buffers start empty. -/
def FGBWriter.new (path : String) (fs : FS) : FGBWriter × FS :=
  (⟨path, [], false⟩, fsWrite fs path [])

/-- The feature-appending loop shared by `add_xml_features`/`add_features`:
each appended record sets `has_features` and goes into the buffers. -/
def FGBWriter.add_features (w : FGBWriter) (features : List Feature) : FGBWriter :=
  features.foldl
    (fun w f => { w with has_features := true, buffer := w.buffer ++ [f] })
    w

/-- Translation of `FGBWriter::flush`: with records present, serialize the
buffers to the output file and report `true`; with none, remove the output
file — treating `NotFound` as success — and report `false`. -/
def FGBWriter.flush (w : FGBWriter) (fs : FS) : Except IoErrorKind (FS × Bool) :=
  if w.has_features then
    .ok (fsWrite fs w.output_path w.buffer, true)
  else
    match fsRemoveFile fs w.output_path with
    | .ok fs2 => .ok (fs2, false)
    | .error e => if e = IoErrorKind.NotFound then .ok (fs, false) else .error e

/-! ## Pipeline model (processor.rs, main.rs) -/

/-- One archive item of the pipeline: a read error is logged and skipped; a
successfully read document increments the `xml_files` counter before parsing;
a parse `Err` is logged and contributes nothing; a parse panic crashes a
worker thread and therefore the whole run (the orchestrator joins and
re-panics), modelled as `none`. -/
def processItem (tri : Polygon → List Triangle)
    (T : String → String → ℚ × ℚ → Except String (ℚ × ℚ)) (options : ParseOptions)
    (acc : Option (Nat × List Feature)) (item : Except String FileData) :
    Option (Nat × List Feature) :=
  match acc with
  | none => none
  | some nf =>
    match item with
    | .error _ => some nf
    | .ok fd =>
      match parse_xml_content tri T fd options with
      | .ok parsed => some (nf.1 + 1, nf.2 ++ parsed.features)
      | .error (PErr.err _) => some (nf.1 + 1, nf.2)
      | .error (PErr.panicMsg _) => none

/-- Sequential model of `processor.rs::process_files`.  `inputs` holds, per
input path, the items its `iter_xml_contents` iterator yields (read error or
file data).  Returns the final `xml_files` counter value and the records
handed to the writer, or `none` when a parse panic aborted the run. -/
def process_files (tri : Polygon → List Triangle)
    (T : String → String → ℚ × ℚ → Except String (ℚ × ℚ))
    (inputs : List (List (Except String FileData))) (options : ParseOptions) :
    Option (Nat × List Feature) :=
  inputs.foldl
    (fun acc path => path.foldl (processItem tri T options) acc)
    (some (0, []))

/-- The number of successfully read documents among one path's items. -/
def okCountItems (items : List (Except String FileData)) : Nat :=
  items.countP
    (fun item =>
      match item with
      | .error _ => false
      | .ok _ => true)

/-- Modelled from the spec: "a final count of documents successfully
contributed to the output" — the number of input documents whose parse
succeeded with at least one record.  Stated for comparison with the count
`process_files` actually returns. -/
def contributedCount (tri : Polygon → List Triangle)
    (T : String → String → ℚ × ℚ → Except String (ℚ × ℚ))
    (inputs : List (List (Except String FileData))) (options : ParseOptions) : Nat :=
  (inputs.flatMap (fun path => path)).countP
    (fun item =>
      match item with
      | .error _ => false
      | .ok fd =>
        match parse_xml_content tri T fd options with
        | .ok parsed => !parsed.features.isEmpty
        | .error _ => false)

/-- The number of documents successfully yielded by the archive readers (the
events that increment the `xml_files` counter). -/
def okItemCount (inputs : List (List (Except String FileData))) : Nat :=
  (inputs.flatMap (fun path => path)).countP
    (fun item =>
      match item with
      | .error _ => false
      | .ok _ => true)

/-- All coordinates appearing in a multi-polygon, rings flattened. -/
def mpCoords (mp : MultiPolygon) : List Pt :=
  mp.polygons.flatMap (fun poly => poly.exterior ++ poly.interiors.flatMap (fun r => r))

/-! ## Concrete example documents (used as evaluation inputs) -/

/-- The spatial-primitive namespace URI. -/
def zmnUri : Option String := some "http://www.moj.go.jp/MINJI/tizuzumen"

/-- The default document namespace URI. -/
def tizuUri : Option String := some "http://www.moj.go.jp/MINJI/tizuxml"

/-- A triangulation that returns no triangle for any polygon (a degenerate
ear-cut outcome). -/
def triEmpty : Polygon → List Triangle := fun _ => []

/-- A triangulation that returns one fixed triangle for any polygon. -/
def triOne : Polygon → List Triangle := fun _ => [⟨⟨0, 0⟩, ⟨1, 0⟩, ⟨0, 1⟩⟩]

/-- An always-succeeding identity coordinate transform. -/
def T0 : String → String → ℚ × ℚ → Except String (ℚ × ℚ) := fun _ _ p => .ok p

/-- A small spatial-attributes subtree: a point `P1`, a curve `C1` referencing
it indirectly, a surface `S1` whose exterior ring is `[C1]`. -/
def sampleSpatial : XNode := .elem "空間属性" tizuUri [] [
  .elem "GM_Point" zmnUri [("id", "P1")] [
    .elem "GM_Point.position" zmnUri [] [
      .elem "DirectPosition" zmnUri [] [
        .elem "X" zmnUri [] [.txt "35.0"],
        .elem "Y" zmnUri [] [.txt "139.0"]]]],
  .elem "GM_Curve" zmnUri [("id", "C1")] [
    .elem "GM_Curve.segment" zmnUri [] [
      .elem "GM_LineString" zmnUri [] [
        .elem "GM_LineString.controlPoint" zmnUri [] [
          .elem "GM_PointArray" zmnUri [] [
            .elem "GM_PointArray.column" zmnUri [] [
              .elem "GM_Position.indirect" zmnUri [] [
                .elem "GM_PointRef.point" zmnUri [("idref", "P1")] []]]]]]]],
  .elem "GM_Surface" zmnUri [("id", "S1")] [
    .elem "GM_Surface.patch" zmnUri [] [
      .elem "GM_Polygon" zmnUri [] [
        .elem "GM_Polygon.boundary" zmnUri [] [
          .elem "GM_SurfaceBoundary" zmnUri [] [
            .elem "GM_SurfaceBoundary.exterior" zmnUri [] [
              .elem "GM_Ring" zmnUri [] [
                .elem "GM_CompositeCurve.generator" zmnUri [("idref", "C1")] []]]]]]]]]

/-- A complete document: arbitrary coordinate system, one parcel `F1` with
shape `S1` and lot number `1`. -/
def sampleRoot : XNode := .elem "地図" tizuUri [] [
  .elem "地図名" tizuUri [] [.txt "地図A"],
  .elem "市区町村コード" tizuUri [] [.txt "46505"],
  .elem "市区町村名" tizuUri [] [.txt "市A"],
  .elem "座標系" tizuUri [] [.txt "任意座標系"],
  sampleSpatial,
  .elem "主題属性" tizuUri [] [
    .elem "筆" tizuUri [("id", "F1")] [
      .elem "形状" tizuUri [("idref", "S1")] [],
      .elem "地番" tizuUri [] [.txt "1"]]]]

/-- A variant of `sampleRoot` whose coordinate-system name is unrecognized. -/
def badCrsRoot : XNode := .elem "地図" tizuUri [] [
  .elem "地図名" tizuUri [] [.txt "地図A"],
  .elem "市区町村コード" tizuUri [] [.txt "46505"],
  .elem "市区町村名" tizuUri [] [.txt "市A"],
  .elem "座標系" tizuUri [] [.txt "COYOTE系"],
  sampleSpatial,
  .elem "主題属性" tizuUri [] []]

/-- A spatial-attributes subtree like `sampleSpatial` whose single point sits
at the origin. -/
def tableSpatial : XNode := .elem "空間属性" tizuUri [] [
  .elem "GM_Point" zmnUri [("id", "P1")] [
    .elem "GM_Point.position" zmnUri [] [
      .elem "DirectPosition" zmnUri [] [
        .elem "X" zmnUri [] [.txt "0"],
        .elem "Y" zmnUri [] [.txt "0"]]]],
  .elem "GM_Curve" zmnUri [("id", "C1")] [
    .elem "GM_Curve.segment" zmnUri [] [
      .elem "GM_LineString" zmnUri [] [
        .elem "GM_LineString.controlPoint" zmnUri [] [
          .elem "GM_PointArray" zmnUri [] [
            .elem "GM_PointArray.column" zmnUri [] [
              .elem "GM_Position.indirect" zmnUri [] [
                .elem "GM_PointRef.point" zmnUri [("idref", "P1")] []]]]]]]],
  .elem "GM_Surface" zmnUri [("id", "S1")] [
    .elem "GM_Surface.patch" zmnUri [] [
      .elem "GM_Polygon" zmnUri [] [
        .elem "GM_Polygon.boundary" zmnUri [] [
          .elem "GM_SurfaceBoundary" zmnUri [] [
            .elem "GM_SurfaceBoundary.exterior" zmnUri [] [
              .elem "GM_Ring" zmnUri [] [
                .elem "GM_CompositeCurve.generator" zmnUri [("idref", "C1")] []]]]]]]]]

/-- A variant of `sampleRoot` whose coordinate-system name is a recognized
table entry (公共座標9系), driving the pipeline through the transform. -/
def tableCrsRoot : XNode := .elem "地図" tizuUri [] [
  .elem "地図名" tizuUri [] [.txt "地図A"],
  .elem "市区町村コード" tizuUri [] [.txt "46505"],
  .elem "市区町村名" tizuUri [] [.txt "市A"],
  .elem "座標系" tizuUri [] [.txt "公共座標9系"],
  tableSpatial,
  .elem "主題属性" tizuUri [] [
    .elem "筆" tizuUri [("id", "F1")] [
      .elem "形状" tizuUri [("idref", "S1")] [],
      .elem "地番" tizuUri [] [.txt "1"]]]]

/-- A parcel with an ordinary lot number whose shape reference `S404`
resolves to no surface. -/
def fudeCxA : XNode := .elem "筆" tizuUri [("id", "F1")] [
  .elem "形状" tizuUri [("idref", "S404")] [],
  .elem "地番" tizuUri [] [.txt "7"]]

/-- A parcel with no lot-number element and a dangling shape reference. -/
def fudeCxB : XNode := .elem "筆" tizuUri [("id", "F1")] [
  .elem "形状" tizuUri [("idref", "S404")] []]

/-- A parcel excluded by the chikugai filter (lot number `地区外`) whose
shape reference `S404` resolves to no surface. -/
def fudeCxC : XNode := .elem "筆" tizuUri [("id", "F1")] [
  .elem "形状" tizuUri [("idref", "S404")] [],
  .elem "地番" tizuUri [] [.txt "地区外"]]

/-- A subject-attributes subtree holding only the excluded dangling parcel. -/
def subjCx : XNode := .elem "主題属性" tizuUri [] [fudeCxC]

/-- Common properties used with the hand-built subject subtrees. -/
def commonCx : CommonProperties := ⟨"m", 1, "c", "任意座標系", none⟩

/-- A document root missing every required child: its parse fails with a
missing-element error. -/
def badRoot : XNode := .elem "地図" tizuUri [] []

/-- A parcel whose optional numeric attribute `大字コード` has unparseable
text, with a resolvable shape reference. -/
def fudeC6 : XNode := .elem "筆" tizuUri [("id", "F1")] [
  .elem "形状" tizuUri [("idref", "S1")] [],
  .elem "地番" tizuUri [] [.txt "1"],
  .elem "大字コード" tizuUri [] [.txt "12ab"]]

/-- A one-polygon surface mapping for `S1`. -/
def surfC6 : List (String × MultiPolygon) := [("S1", ⟨[⟨[⟨0, 0⟩], []⟩]⟩)]

/-- A sample output record used in writer evaluations. -/
def featW : Feature :=
  ⟨⟨[⟨[⟨0, 0⟩], []⟩]⟩,
   ⟨"m", 1, "c", "任意座標系", none, "F1", none, none, none, none, none,
    none, none, none, none, some "1", none, none, 0, 0⟩⟩

/-! ## Theorems -/

/-- Evaluation fact: the substituted default string `"0"` parses to `0`. -/
theorem parseFloatE_zero : parseFloatE "0" = .ok 0 := by
  with_unfolding_all rfl

/-- C10: in `parse_points`, an `X` or `Y` child element that is present but
has no text content is parsed as the coordinate value `0` (the absent text is
replaced by the string `"0"` before numeric parsing) and does not fail;
a wholly absent `X` element fails with a missing-element error, and
non-numeric text fails with a float-parse error. -/
theorem C10_absent_text_parses_as_zero :
    (∀ (c : XNode) (cs : List XNode) (acc : Option ℚ × Option ℚ),
      c.tagName = "X" → c.textOf = none →
      scanDirectXY acc (c :: cs) = scanDirectXY (some 0, acc.2) cs) ∧
    (∀ (c : XNode) (cs : List XNode) (acc : Option ℚ × Option ℚ),
      c.tagName = "Y" → c.textOf = none →
      scanDirectXY acc (c :: cs) = scanDirectXY (acc.1, some 0) cs) ∧
    (∀ pid t v, parseDecimal t = some v →
      parsePointOne (.elem "GM_Point" zmnUri [("id", pid)] [
        .elem "DirectPosition" zmnUri [] [
          .elem "X" zmnUri [] [],
          .elem "Y" zmnUri [] [.txt t]]]) = .ok (pid, ⟨0, v⟩)) ∧
    (∀ pid t v, parseDecimal t = some v →
      parsePointOne (.elem "GM_Point" zmnUri [("id", pid)] [
        .elem "DirectPosition" zmnUri [] [
          .elem "Y" zmnUri [] [.txt t]]]) = .error (.MissingElement "X")) ∧
    (∀ pid t, parseDecimal t = none →
      parsePointOne (.elem "GM_Point" zmnUri [("id", pid)] [
        .elem "DirectPosition" zmnUri [] [
          .elem "X" zmnUri [] [.txt t],
          .elem "Y" zmnUri [] [.txt "5"]]]) = .error (.ParseFloat t)) := by
  refine ⟨?_, ?_, ?_, ?_, ?_⟩
  · intro c cs acc h1 h2
    simp [scanDirectXY, h1, h2, parseFloatE_zero, Bind.bind, Except.bind]
  · intro c cs acc h1 h2
    have hx : ¬ c.tagName = "X" := by rw [h1]; decide
    simp [scanDirectXY, hx, h1, h2, parseFloatE_zero, Bind.bind, Except.bind]
  · intro pid t v h
    have ht : parseFloatE t = .ok v := by simp [parseFloatE, h]
    simp [parsePointOne, XNode.descendants, XNode.descendantsList, zmnUri,
      XNode.tagName, XNode.nsName, XNode.textOf, XNode.childNodes, XNode.attr,
      scanDirectXY, ht, get_xml_namespace, parseFloatE_zero,
      Bind.bind, Except.bind, pure, Except.pure]
  · intro pid t v h
    have ht : parseFloatE t = .ok v := by simp [parseFloatE, h]
    simp [parsePointOne, XNode.descendants, XNode.descendantsList, zmnUri,
      XNode.tagName, XNode.nsName, XNode.textOf, XNode.childNodes, XNode.attr,
      scanDirectXY, ht, get_xml_namespace,
      Bind.bind, Except.bind, pure, Except.pure]
    rfl
  · intro pid t h
    have ht : parseFloatE t = .error (.ParseFloat t) := by simp [parseFloatE, h]
    simp [parsePointOne, XNode.descendants, XNode.descendantsList, zmnUri,
      XNode.tagName, XNode.nsName, XNode.textOf, XNode.childNodes, XNode.attr,
      scanDirectXY, ht, get_xml_namespace,
      Bind.bind, Except.bind, pure, Except.pure]

/-- Witness for C10 at concrete inputs. -/
theorem C10_absent_text_parses_as_zero_witness :
    scanDirectXY (none, none) [XNode.elem "X" zmnUri [] [], XNode.elem "Y" zmnUri [] []]
        = scanDirectXY (some 0, none) [XNode.elem "Y" zmnUri [] []] ∧
    parsePointOne (.elem "GM_Point" zmnUri [("id", "P7")] [
      .elem "DirectPosition" zmnUri [] [
        .elem "X" zmnUri [] [],
        .elem "Y" zmnUri [] [.txt "5"]]]) = .ok ("P7", ⟨0, 5⟩) ∧
    parsePointOne (.elem "GM_Point" zmnUri [("id", "P7")] [
      .elem "DirectPosition" zmnUri [] [
        .elem "X" zmnUri [] [.txt "x9"],
        .elem "Y" zmnUri [] [.txt "5"]]]) = .error (.ParseFloat "x9") := by
  refine ⟨?_, ?_, ?_⟩
  · exact C10_absent_text_parses_as_zero.1 (.elem "X" zmnUri [] [])
      [XNode.elem "Y" zmnUri [] []] (none, none) rfl rfl
  · exact C10_absent_text_parses_as_zero.2.2.1 "P7" "5" 5 (by with_unfolding_all rfl)
  · exact C10_absent_text_parses_as_zero.2.2.2.2 "P7" "x9" (by with_unfolding_all rfl)

/-- Evaluation fact: the maximum of an empty list is `none`. -/
theorem maxByLast_nil {α : Type} (f : α → ℚ) : maxByLast f [] = none := rfl

/-- Evaluation fact: `throw` on `Except` is `Except.error`. -/
theorem except_throw {ε α : Type} (e : ε) : (throw e : Except ε α) = .error e := rfl

/-- C9: `point_on_surface` is partial: on a multi-polygon with no polygons,
or when the triangulation of the selected largest polygon yields no triangle,
it panics (the `expect` messages) instead of returning an error value; through
`parse_features`, `parse_xml_content` can therefore end in a panic rather than
an `Err` on such degenerate geometry. -/
theorem C9_point_on_surface_panics :
    (∀ tri, point_on_surface tri ⟨[]⟩ =
      .error "MultiPolygon must have at least one Polygon") ∧
    (∀ tri mp poly, maxByLast Polygon.unsignedArea mp.polygons = some poly →
      tri poly = [] →
      point_on_surface tri mp = .error "polygon must have at least one triangle") ∧
    (parse_xml_content triEmpty T0 ⟨"a.xml", some sampleRoot⟩ ⟨true, true⟩ =
      .error (.panicMsg "polygon must have at least one triangle")) ∧
    (∀ e, parse_xml_content triEmpty T0 ⟨"a.xml", some sampleRoot⟩ ⟨true, true⟩ ≠
      .error (.err e)) := by
  have hmain : parse_xml_content triEmpty T0 ⟨"a.xml", some sampleRoot⟩ ⟨true, true⟩ =
      .error (.panicMsg "polygon must have at least one triangle") := by
    with_unfolding_all rfl
  refine ⟨?_, ?_, hmain, ?_⟩
  · intro tri
    rfl
  · intro tri mp poly h1 h2
    unfold point_on_surface
    rw [h1]
    simp [h2, maxByLast_nil, Bind.bind, Except.bind, except_throw]
  · intro e h
    rw [hmain] at h
    exact PErr.noConfusion (Except.error.inj h)

/-- Witness for C9 at concrete inputs. -/
theorem C9_point_on_surface_panics_witness :
    point_on_surface triOne ⟨[]⟩ = .error "MultiPolygon must have at least one Polygon" ∧
    point_on_surface triEmpty ⟨[⟨[⟨0, 0⟩], []⟩]⟩ =
      .error "polygon must have at least one triangle" := by
  refine ⟨C9_point_on_surface_panics.1 triOne, ?_⟩
  exact C9_point_on_surface_panics.2.1 triEmpty ⟨[⟨[⟨0, 0⟩], []⟩]⟩ ⟨[⟨0, 0⟩], []⟩
    (by with_unfolding_all rfl) rfl

/-- C7: `parse_surfaces` consumes only the first `GM_Polygon` across a
surface's patches: the result is determined by the surface's `id` attribute
and its first polygon alone (later patches and polygons are ignored), every
successfully parsed surface is a multi-polygon holding exactly one polygon,
and a surface with no patch polygon fails with a missing-element error. -/
theorem C7_first_polygon_only :
    (∀ curves s1 s2, s1.attr "id" = s2.attr "id" → firstPolygonOf s1 = firstPolygonOf s2 →
      parseSurfaceOne curves s1 = parseSurfaceOne curves s2) ∧
    (∀ curves s sid mp, parseSurfaceOne curves s = .ok (sid, mp) →
      ∃ poly, mp.polygons = [poly]) ∧
    (∀ curves s, firstPolygonOf s = none →
      parseSurfaceOne curves s = .error (.MissingElement "GM_Surface.patch")) := by
  refine ⟨?_, ?_, ?_⟩
  · intro curves s1 s2 h1 h2
    unfold parseSurfaceOne
    rw [h1, h2]
  · intro curves s sid mp h
    unfold parseSurfaceOne at h
    simp only [Bind.bind, Except.bind, pure, Except.pure, except_throw] at h
    repeat' split at h
    all_goals first
      | exact Except.noConfusion h
      | (injection h with hpair
         simp only [Prod.mk.injEq] at hpair
         exact ⟨_, by rw [← hpair.2]⟩)
  · intro curves s h
    unfold parseSurfaceOne
    rw [h]
    rfl

/-- Witness for C7 at concrete inputs. -/
theorem C7_first_polygon_only_witness :
    (∃ poly, (⟨[⟨[⟨139, 35⟩], []⟩]⟩ : MultiPolygon).polygons = [poly]) ∧
    parseSurfaceOne [] (.elem "GM_Surface" zmnUri [("id", "S9")] []) =
      .error (.MissingElement "GM_Surface.patch") := by
  constructor
  · exact C7_first_polygon_only.2.1 [("C1", ⟨139, 35⟩)]
      (.elem "GM_Surface" zmnUri [("id", "S1")] [
        .elem "GM_Surface.patch" zmnUri [] [
          .elem "GM_Polygon" zmnUri [] [
            .elem "GM_SurfaceBoundary.exterior" zmnUri [] [
              .elem "GM_Ring" zmnUri [] [
                .elem "GM_CompositeCurve.generator" zmnUri [("idref", "C1")] []]]]]])
      "S1" ⟨[⟨[⟨139, 35⟩], []⟩]⟩ (by with_unfolding_all rfl)
  · exact C7_first_polygon_only.2.2 [] (.elem "GM_Surface" zmnUri [("id", "S9")] [])
      (by with_unfolding_all rfl)

/-- C3: every curve stored by `parse_curves` is axis-swapped relative to the
source declaration order: the position resolved in declaration order
(`curve_pos_xy`, whether direct inline X/Y or via an `idref` to a point)
becomes the stored pair with x and y exchanged, while `parse_points` itself
stores points in declaration order, so downstream code receives
(x = declared second axis, y = declared first axis). -/
theorem C3_axis_swap :
    (∀ points curve cid pt, parseCurveOne points curve = .ok (cid, pt) →
      ∃ pos sx sy, find_pos curve = .ok pos ∧ curve_pos_xy points pos = .ok (sx, sy) ∧
        pt.x = sy ∧ pt.y = sx) ∧
    (∀ pnode pid q, parsePointOne pnode = .ok (pid, q) →
      ∃ pos, pnode.descendants.find?
          (fun c => c.tagName == "DirectPosition" && c.nsName == get_xml_namespace (some "zmn"))
            = some pos ∧
        scanDirectXY (none, none) pos.childNodes = .ok (some q.x, some q.y)) := by
  constructor
  · intro points curve cid pt h
    unfold parseCurveOne at h
    simp only [Bind.bind, Except.bind, pure, Except.pure, except_throw] at h
    cases hid : curve.attr "id" with
    | none => rw [hid] at h; exact Except.noConfusion h
    | some cid0 =>
      rw [hid] at h
      dsimp only at h
      cases hfp : find_pos curve with
      | error e => rw [hfp] at h; exact Except.noConfusion h
      | ok pos =>
        rw [hfp] at h
        dsimp only at h
        cases hxy : curve_pos_xy points pos with
        | error e => rw [hxy] at h; exact Except.noConfusion h
        | ok xy =>
          rw [hxy] at h
          dsimp only at h
          injection h with hpair
          simp only [Prod.mk.injEq] at hpair
          refine ⟨pos, xy.1, xy.2, rfl, by rw [hxy], ?_, ?_⟩
          · rw [← hpair.2]
          · rw [← hpair.2]
  · intro pnode pid q h
    unfold parsePointOne at h
    simp only [Bind.bind, Except.bind, pure, Except.pure, except_throw] at h
    cases hfind : pnode.descendants.find?
        (fun c => c.tagName == "DirectPosition" && c.nsName == get_xml_namespace (some "zmn")) with
    | none => rw [hfind] at h; exact Except.noConfusion h
    | some pos =>
      rw [hfind] at h
      dsimp only at h
      cases hscan : scanDirectXY (none, none) pos.childNodes with
      | error e => rw [hscan] at h; exact Except.noConfusion h
      | ok v =>
        rw [hscan] at h
        dsimp only at h
        cases hx : v.1 with
        | none => rw [hx] at h; exact Except.noConfusion h
        | some x =>
          rw [hx] at h
          dsimp only at h
          cases hy : v.2 with
          | none => rw [hy] at h; exact Except.noConfusion h
          | some y =>
            rw [hy] at h
            dsimp only at h
            cases hid : pnode.attr "id" with
            | none => rw [hid] at h; exact Except.noConfusion h
            | some pid0 =>
              rw [hid] at h
              dsimp only at h
              injection h with hpair
              simp only [Prod.mk.injEq] at hpair
              refine ⟨pos, rfl, ?_⟩
              rw [hscan, ← hpair.2, ← hx, ← hy]

/-- Witness for C3 at a concrete direct-position curve. -/
theorem C3_axis_swap_witness :
    ∃ pos sx sy,
      find_pos (.elem "GM_Curve" zmnUri [("id", "C1")] [
        .elem "GM_Curve.segment" zmnUri [] [
          .elem "GM_PointArray.column" zmnUri [] [
            .elem "GM_Position.direct" zmnUri [] [
              .elem "X" zmnUri [] [.txt "35"],
              .elem "Y" zmnUri [] [.txt "139"]]]]]) = .ok pos ∧
      curve_pos_xy [] pos = .ok (sx, sy) ∧
      (⟨139, 35⟩ : Pt).x = sy ∧ (⟨139, 35⟩ : Pt).y = sx := by
  exact C3_axis_swap.1 [] _ "C1" ⟨139, 35⟩ (by with_unfolding_all rfl)

/-- Helper: a successful transform run keeps every curve id bound, now to the
degree-converted transform of its stored coordinate. -/
theorem transform_ok_get (T : String → String → ℚ × ℚ → Except String (ℚ × ℚ))
    (src tgt : String) (curves : List (String × Pt)) :
    ∀ (res : List (String × Pt)) (k : String) (c : Pt),
      transform_curves_crs T src tgt curves = .ok res →
      mapGet curves k = some c →
      ∃ p, T src tgt (c.x, c.y) = .ok p ∧
        mapGet res k = some ⟨p.1 * degPerRad, p.2 * degPerRad⟩ := by
  induction curves with
  | nil =>
    intro res k c hok hg
    exact Option.noConfusion hg
  | cons kv rest ih =>
    intro res k c hok hg
    unfold transform_curves_crs at hok
    simp only [Bind.bind, Except.bind, pure, Except.pure] at hok
    cases hT : T src tgt (kv.2.x, kv.2.y) with
    | error m => rw [hT] at hok; exact Except.noConfusion hok
    | ok p =>
      rw [hT] at hok
      dsimp only at hok
      cases htail : transform_curves_crs T src tgt rest with
      | error e => rw [htail] at hok; exact Except.noConfusion hok
      | ok tail =>
        rw [htail] at hok
        dsimp only at hok
        have hres := Except.ok.inj hok
        by_cases hk : (kv.1 == k)
        · have hc : kv.2 = c := by
            simp only [mapGet, List.find?_cons, hk] at hg
            exact Option.some.inj hg
          refine ⟨p, by rw [← hc]; exact hT, ?_⟩
          rw [← hres]
          simp [mapGet, List.find?_cons, hk]
        · have hg2 : mapGet rest k = some c := by
            simp only [mapGet, List.find?_cons, hk] at hg
            exact hg
          obtain ⟨p2, hp2, hget⟩ := ih tail k c htail hg2
          refine ⟨p2, hp2, ?_⟩
          rw [← hres]
          simpa [mapGet, List.find?_cons, hk] using hget

/-- Helper: a transform failure on any listed curve makes the whole transform
run fail with a Projection error (the first failing curve in list order
supplies the message). -/
theorem transform_err_of_mem (T : String → String → ℚ × ℚ → Except String (ℚ × ℚ))
    (src tgt : String) (curves : List (String × Pt)) :
    ∀ (kv : String × Pt) (m : String),
      kv ∈ curves → T src tgt (kv.2.x, kv.2.y) = .error m →
      ∃ m2, transform_curves_crs T src tgt curves = .error (.Projection m2) := by
  induction curves with
  | nil =>
    intro kv m hmem _
    exact absurd hmem (List.not_mem_nil kv)
  | cons a rest ih =>
    intro kv m hmem hT
    cases hTa : T src tgt (a.2.x, a.2.y) with
    | error ma =>
      refine ⟨ma, ?_⟩
      unfold transform_curves_crs
      simp [hTa, Bind.bind, Except.bind]
    | ok p =>
      rcases List.mem_cons.mp hmem with heq | hmem2
      · rw [heq] at hT
        rw [hT] at hTa
        exact Except.noConfusion hTa
      · obtain ⟨m2, hm2⟩ := ih kv m hmem2 hT
        refine ⟨m2, ?_⟩
        unfold transform_curves_crs
        simp [hTa, hm2, Bind.bind, Except.bind]

/-- Evaluation fact: the arbitrary sentinel has no entry in the projection
table. -/
theorem arbitrary_not_in_table : mapGet PROJ_STRS "任意座標系" = none := by
  with_unfolding_all rfl

/-- C2 counterexample: a recognized table name does not determine the
outcome by itself — on the same table-CRS document, a transform that fails
on its coordinate aborts the whole document with a `Projection` error (a
fourth outcome, neither pass-through, nor in-place transformation, nor
`UnsupportedCrs`), while a succeeding transform parses the document. -/
theorem C2_counterexample :
    mapGet PROJ_STRS "公共座標9系" = some "+proj=tmerc +lat_0=36 +lon_0=139.833333333333 +k=0.9999 +x_0=0 +y_0=0 +ellps=GRS80 +towgs84=0,0,0,0,0,0,0 +units=m +no_defs +type=crs" ∧
    parse_xml_content triOne (fun _ _ _ => .error "out of range")
        ⟨"c.xml", some tableCrsRoot⟩ ⟨true, true⟩ =
      .error (.err (.Projection "out of range")) ∧
    parse_xml_content triOne T0 ⟨"c.xml", some tableCrsRoot⟩ ⟨true, true⟩ =
      .ok ⟨"c.xml", [⟨⟨[⟨[⟨0, 0⟩], []⟩]⟩,
        ⟨"地図A", 46505, "市A", "公共座標9系", none, "F1", none, none, none, none, none,
         none, none, none, none, some "1", none, none, 1/3, 1/3⟩⟩]⟩ := by
  refine ⟨by with_unfolding_all rfl, by with_unfolding_all rfl, by with_unfolding_all rfl⟩

/-- C2 (amended): the coordinate-system name selects the branch: the
arbitrary sentinel `任意座標系` maps to "no projection" (and then
`parse_xml_content` is independent of the transform, so curves pass through
untransformed), a name present in the projection table maps to its
projection string, and any other name is an `UnsupportedCrs` error carrying
the raw name, which aborts the document with no features.  For a table name,
however, the outcome is not determined by the name alone: each curve
coordinate is passed through the fallible transform — on success it is
replaced by the transformed pair converted from radians to degrees, but a
transform failure on any curve aborts the whole document with a `Projection`
error. -/
theorem C2_crs_outcomes_amended :
    (get_proj "任意座標系" = .ok none) ∧
    (∀ name s, mapGet PROJ_STRS name = some s → get_proj name = .ok (some s)) ∧
    (∀ name, name ≠ "任意座標系" → mapGet PROJ_STRS name = none →
      get_proj name = .error (.UnsupportedCrs name)) ∧
    (∀ T src tgt (curves res : List (String × Pt)) cid c,
      transform_curves_crs T src tgt curves = .ok res →
      mapGet curves cid = some c →
      ∃ p, T src tgt (c.x, c.y) = .ok p ∧
        mapGet res cid = some ⟨p.1 * degPerRad, p.2 * degPerRad⟩) ∧
    (∀ T src tgt (curves : List (String × Pt)) kv m,
      kv ∈ curves → T src tgt (kv.2.x, kv.2.y) = .error m →
      ∃ m2, transform_curves_crs T src tgt curves = .error (.Projection m2)) ∧
    (∀ tri T fd root (opts : ParseOptions) cp name prj spatial points curvesRaw e,
      fd.root = some root →
      parse_common_properties root = .ok cp →
      textOfE root "座標系" = .ok name →
      get_proj name = .ok (some prj) →
      get_child_element root "空間属性" = .ok spatial →
      parse_points spatial = .ok points →
      parse_curves spatial points = .ok curvesRaw →
      transform_curves_crs T prj "+proj=longlat +ellps=WGS84 +datum=WGS84 +no_defs"
          curvesRaw = .error e →
      parse_xml_content tri T fd opts = .error (.err e)) ∧
    (∀ tri T fd root opts cp name, fd.root = some root →
      parse_common_properties root = .ok cp →
      textOfE root "座標系" = .ok name →
      name ≠ "任意座標系" → mapGet PROJ_STRS name = none →
      parse_xml_content tri T fd opts = .error (.err (.UnsupportedCrs name))) ∧
    (∀ tri T T1 fd root opts, fd.root = some root →
      textOfE root "座標系" = .ok "任意座標系" →
      parse_xml_content tri T fd opts = parse_xml_content tri T1 fd opts) := by
  refine ⟨rfl, ?_, ?_, ?_, ?_, ?_, ?_, ?_⟩
  · intro name s h
    unfold get_proj
    by_cases ha : name = "任意座標系"
    · rw [ha] at h; rw [arbitrary_not_in_table] at h; exact Option.noConfusion h
    · simp [ha, h]
  · intro name hne hnone
    unfold get_proj
    simp [hne, hnone]
  · intro T src tgt curves res cid c hok hg
    exact transform_ok_get T src tgt curves res cid c hok hg
  · intro T src tgt curves kv m hmem hT
    exact transform_err_of_mem T src tgt curves kv m hmem hT
  · intro tri T fd root opts cp name prj spatial points curvesRaw e
      hroot hcp hcrs hgp hsp hpts hcur htr
    unfold parse_xml_content
    rw [hroot]
    simp only [Bind.bind, Except.bind]
    rw [hcp]
    dsimp only
    rw [hcrs]
    dsimp only [liftE]
    rw [hgp]
    dsimp only [liftE]
    simp only [Option.isNone_some, Bool.false_and, Bool.false_eq_true, reduceIte]
    rw [hsp]
    dsimp only [liftE]
    rw [hpts]
    dsimp only [liftE]
    rw [hcur]
    dsimp only [liftE]
    have hw : get_proj "WGS84" =
        .ok (some "+proj=longlat +ellps=WGS84 +datum=WGS84 +no_defs") := by
      with_unfolding_all rfl
    rw [hw]
    dsimp only [liftE]
    rw [htr]
  · intro tri T fd root opts cp name hroot hcp hcrs hne hnone
    have hgp : get_proj name = .error (.UnsupportedCrs name) := by
      unfold get_proj; simp [hne, hnone]
    unfold parse_xml_content
    rw [hroot]
    simp only [Bind.bind, Except.bind]
    rw [hcp]
    dsimp only
    rw [hcrs]
    dsimp only [liftE]
    rw [hgp]
  · intro tri T T1 fd root opts hroot hcrs
    obtain ⟨arb, chik⟩ := opts
    unfold parse_xml_content
    rw [hroot]
    simp only [Bind.bind, Except.bind]
    cases hcp : parse_common_properties root with
    | error e => rfl
    | ok cp =>
      dsimp only
      rw [hcrs]
      dsimp only [liftE]
      have hgp : get_proj "任意座標系" = .ok none := rfl
      rw [hgp]

/-- Witness for the amended C2 at concrete inputs. -/
theorem C2_crs_outcomes_amended_witness :
    get_proj "公共座標9系" = .ok (some "+proj=tmerc +lat_0=36 +lon_0=139.833333333333 +k=0.9999 +x_0=0 +y_0=0 +ellps=GRS80 +towgs84=0,0,0,0,0,0,0 +units=m +no_defs +type=crs") ∧
    get_proj "COYOTE系" = .error (.UnsupportedCrs "COYOTE系") ∧
    (∃ p, T0 "s" "t" ((⟨2, 3⟩ : Pt).x, (⟨2, 3⟩ : Pt).y) = .ok p ∧
      mapGet [("C1", (⟨2 * degPerRad, 3 * degPerRad⟩ : Pt))] "C1" =
        some ⟨p.1 * degPerRad, p.2 * degPerRad⟩) ∧
    (∃ m2, transform_curves_crs (fun _ _ _ => .error "out of range") "s" "t"
        [("C1", (⟨2, 3⟩ : Pt))] = .error (.Projection m2)) ∧
    parse_xml_content triEmpty (fun _ _ _ => .error "out of range")
        ⟨"d.xml", some tableCrsRoot⟩ ⟨true, true⟩ =
      .error (.err (.Projection "out of range")) ∧
    parse_xml_content triOne T0 ⟨"b.xml", some badCrsRoot⟩ ⟨true, true⟩ =
      .error (.err (.UnsupportedCrs "COYOTE系")) ∧
    parse_xml_content triOne T0 ⟨"a.xml", some sampleRoot⟩ ⟨true, true⟩ =
      parse_xml_content triOne (fun _ _ _ => .error "boom")
        ⟨"a.xml", some sampleRoot⟩ ⟨true, true⟩ := by
  refine ⟨?_, ?_, ?_, ?_, ?_, ?_, ?_⟩
  · exact C2_crs_outcomes_amended.2.1 "公共座標9系" _ (by with_unfolding_all rfl)
  · exact C2_crs_outcomes_amended.2.2.1 "COYOTE系" (by decide) (by with_unfolding_all rfl)
  · exact C2_crs_outcomes_amended.2.2.2.1 T0 "s" "t" [("C1", ⟨2, 3⟩)]
      [("C1", ⟨2 * degPerRad, 3 * degPerRad⟩)] "C1" ⟨2, 3⟩
      (by with_unfolding_all rfl) (by with_unfolding_all rfl)
  · exact C2_crs_outcomes_amended.2.2.2.2.1 (fun _ _ _ => .error "out of range") "s" "t"
      [("C1", ⟨2, 3⟩)] ("C1", ⟨2, 3⟩) "out of range"
      (List.mem_singleton.mpr rfl) (by with_unfolding_all rfl)
  · exact C2_crs_outcomes_amended.2.2.2.2.2.1 triEmpty (fun _ _ _ => .error "out of range")
      ⟨"d.xml", some tableCrsRoot⟩ tableCrsRoot ⟨true, true⟩
      ⟨"地図A", 46505, "市A", "公共座標9系", none⟩ "公共座標9系"
      "+proj=tmerc +lat_0=36 +lon_0=139.833333333333 +k=0.9999 +x_0=0 +y_0=0 +ellps=GRS80 +towgs84=0,0,0,0,0,0,0 +units=m +no_defs +type=crs"
      tableSpatial [("P1", ⟨0, 0⟩)] [("C1", ⟨0, 0⟩)] (.Projection "out of range")
      rfl (by with_unfolding_all rfl) (by with_unfolding_all rfl)
      (by with_unfolding_all rfl) (by with_unfolding_all rfl)
      (by with_unfolding_all rfl) (by with_unfolding_all rfl)
      (by with_unfolding_all rfl)
  · exact C2_crs_outcomes_amended.2.2.2.2.2.2.1 triOne T0 ⟨"b.xml", some badCrsRoot⟩
      badCrsRoot ⟨true, true⟩ ⟨"地図A", 46505, "市A", "COYOTE系", none⟩ "COYOTE系"
      rfl (by with_unfolding_all rfl) (by with_unfolding_all rfl) (by decide)
      (by with_unfolding_all rfl)
  · exact C2_crs_outcomes_amended.2.2.2.2.2.2.2 triOne T0 (fun _ _ _ => .error "boom")
      ⟨"a.xml", some sampleRoot⟩ sampleRoot ⟨true, true⟩ rfl (by with_unfolding_all rfl)

/-- C1 counterexample: a parcel excluded by the chikugai filter whose
surface reference dangles does not abort the document — `parse_features`
returns success with no records, where the claim asserts a whole-document
error. -/
theorem C1_counterexample :
    parse_features triEmpty subjCx [] commonCx ⟨true, false⟩ = .ok [] ∧
    ∀ e, parse_features triEmpty subjCx [] commonCx ⟨true, false⟩ ≠ .error e := by
  have h : parse_features triEmpty subjCx [] commonCx ⟨true, false⟩ = .ok [] := by
    with_unfolding_all rfl
  refine ⟨h, fun e he => ?_⟩
  rw [h] at he
  exact Except.noConfusion he

/-- C1 (amended): in `parse_features`, a parcel whose surface reference does
not resolve is a whole-document error (`MissingElement "geometry"`) when the
parcel passes the chikugai filter, and a parcel lacking the `地番` attribute
while the exclusion rule is active is a whole-document error — but the
exclusion filter runs after the shape `idref` lookup and before the
geometry-presence check, so an excluded parcel is skipped even when its
surface reference dangles. -/
theorem C1_filter_before_geometry_check :
    (∀ tri surfaces common (opts : ParseOptions) fude fid props,
      fude.attr "id" = some fid →
      collectFudeEntries surfaces fude = .ok (none, props) →
      (opts.include_chikugai = true ∨
        (∃ ch, mapGet props "地番" = some ch ∧
          (containsSub ch "地区外" || containsSub ch "別図") = false)) →
      parseFude tri surfaces common opts fude = .error (.err (.MissingElement "geometry"))) ∧
    (∀ tri surfaces common (opts : ParseOptions) fude fid gp,
      opts.include_chikugai = false →
      fude.attr "id" = some fid →
      collectFudeEntries surfaces fude = .ok gp →
      mapGet gp.2 "地番" = none →
      parseFude tri surfaces common opts fude = .error (.err (.MissingElement "地番"))) ∧
    (∀ tri surfaces common (opts : ParseOptions) fude fid gp ch,
      opts.include_chikugai = false →
      fude.attr "id" = some fid →
      collectFudeEntries surfaces fude = .ok gp →
      mapGet gp.2 "地番" = some ch →
      (containsSub ch "地区外" || containsSub ch "別図") = true →
      parseFude tri surfaces common opts fude = .ok none) ∧
    (∀ tri subject surfaces common (opts : ParseOptions) fude,
      subject.childNodes.filter
        (fun c => c.tagName == "筆" && c.nsName == get_xml_namespace none) = [fude] →
      (∀ e, parseFude tri surfaces common opts fude = .error e →
        parse_features tri subject surfaces common opts = .error e) ∧
      (parseFude tri surfaces common opts fude = .ok none →
        parse_features tri subject surfaces common opts = .ok [])) := by
  refine ⟨?_, ?_, ?_, ?_⟩
  · intro tri surfaces common opts fude fid props hid hcollect hfilter
    unfold parseFude
    simp only [Bind.bind, Except.bind]
    rw [hid]
    dsimp only
    rw [hcollect]
    dsimp only [liftE]
    rcases hfilter with hinc | ⟨ch, hch, hmark⟩
    · rw [hinc]
      rfl
    · cases hinc2 : opts.include_chikugai with
      | true => rfl
      | false =>
        rw [hch]
        dsimp only
        rw [hmark]
        rfl
  · intro tri surfaces common opts fude fid gp hinc hid hcollect hchi
    unfold parseFude
    simp only [Bind.bind, Except.bind]
    rw [hid]
    dsimp only
    rw [hcollect]
    dsimp only [liftE]
    rw [hinc, hchi]
    rfl
  · intro tri surfaces common opts fude fid gp ch hinc hid hcollect hchi hmark
    unfold parseFude
    simp only [Bind.bind, Except.bind]
    rw [hid]
    dsimp only
    rw [hcollect]
    dsimp only [liftE]
    rw [hinc, hchi]
    dsimp only
    rw [hmark]
    rfl
  · intro tri subject surfaces common opts fude hlist
    constructor
    · intro e he
      unfold parse_features
      rw [hlist]
      simp only [List.foldlM, Bind.bind, Except.bind]
      rw [he]
    · intro hok
      unfold parse_features
      rw [hlist]
      simp only [List.foldlM, Bind.bind, Except.bind]
      rw [hok]
      rfl

/-- Witness for the amended C1 at concrete parcels. -/
theorem C1_filter_before_geometry_check_witness :
    parseFude triEmpty [] commonCx ⟨true, false⟩ fudeCxA =
      .error (.err (.MissingElement "geometry")) ∧
    parseFude triEmpty [] commonCx ⟨true, false⟩ fudeCxB =
      .error (.err (.MissingElement "地番")) ∧
    parseFude triEmpty [] commonCx ⟨true, false⟩ fudeCxC = .ok none ∧
    parse_features triEmpty subjCx [] commonCx ⟨true, false⟩ = .ok [] := by
  have hc : parseFude triEmpty [] commonCx ⟨true, false⟩ fudeCxC = .ok none :=
    C1_filter_before_geometry_check.2.2.1 triEmpty [] commonCx ⟨true, false⟩ fudeCxC
      "F1" (none, [("地番", "地区外")]) "地区外" rfl (by with_unfolding_all rfl)
      (by with_unfolding_all rfl) (by with_unfolding_all rfl) (by with_unfolding_all rfl)
  refine ⟨?_, ?_, hc, ?_⟩
  · exact C1_filter_before_geometry_check.1 triEmpty [] commonCx ⟨true, false⟩ fudeCxA
      "F1" [("地番", "7")] (by with_unfolding_all rfl) (by with_unfolding_all rfl)
      (Or.inr ⟨"7", by with_unfolding_all rfl, by with_unfolding_all rfl⟩)
  · exact C1_filter_before_geometry_check.2.1 triEmpty [] commonCx ⟨true, false⟩ fudeCxB
      "F1" (none, []) rfl (by with_unfolding_all rfl) (by with_unfolding_all rfl)
      (by with_unfolding_all rfl)
  · exact (C1_filter_before_geometry_check.2.2.2 triEmpty subjCx [] commonCx ⟨true, false⟩
      fudeCxC (by with_unfolding_all rfl)).2 hc

/-- Helper: a key never survives erasure of its entries. -/
theorem find_erase {α : Type} (l : List (String × α)) (path : String) :
    (l.filter (fun p => p.1 != path)).find? (fun p => p.1 == path) = none := by
  induction l with
  | nil => rfl
  | cons a l ih =>
    by_cases h : (a.1 == path) = true
    · simp [List.filter_cons, bne, h, ih]
    · simp [List.filter_cons, bne, h, List.find?_cons, ih]

/-- Helper: appending records leaves the path unchanged, extends the buffers,
and sets `has_features` exactly when a record was appended. -/
theorem add_features_spec (l : List Feature) : ∀ (w : FGBWriter),
    (w.add_features l).output_path = w.output_path ∧
    (w.add_features l).buffer = w.buffer ++ l ∧
    (w.add_features l).has_features = (w.has_features || !l.isEmpty) := by
  induction l with
  | nil => intro w; simp [FGBWriter.add_features]
  | cons a l ih =>
    intro w
    have step : w.add_features (a :: l) =
        FGBWriter.add_features { w with has_features := true, buffer := w.buffer ++ [a] } l := by
      simp [FGBWriter.add_features, List.foldl_cons]
    rw [step]
    obtain ⟨h1, h2, h3⟩ := ih { w with has_features := true, buffer := w.buffer ++ [a] }
    refine ⟨h1, ?_, ?_⟩
    · rw [h2]; simp
    · rw [h3]; simp

/-- Helper: `add_features_spec` over a whole run of appended documents. -/
theorem fold_add_features_spec (batches : List (List Feature)) : ∀ (w : FGBWriter),
    (batches.foldl FGBWriter.add_features w).output_path = w.output_path ∧
    (batches.foldl FGBWriter.add_features w).buffer = w.buffer ++ batches.flatMap (fun b => b) ∧
    (batches.foldl FGBWriter.add_features w).has_features =
      (w.has_features || !(batches.flatMap (fun b => b)).isEmpty) := by
  induction batches with
  | nil => intro w; simp
  | cons b bs ih =>
    intro w
    rw [List.foldl_cons]
    obtain ⟨h1, h2, h3⟩ := ih (w.add_features b)
    obtain ⟨g1, g2, g3⟩ := add_features_spec b w
    refine ⟨by rw [h1, g1], ?_, ?_⟩
    · rw [h2, g2]; simp
    · rw [h3, g3]
      cases b <;> simp [Bool.or_assoc]

/-- Helper: flushing with no record appended deletes the output file and
reports `false`, with no error, whether or not the file exists. -/
theorem flush_no_features (w : FGBWriter) (fs : FS) (hw : w.has_features = false) :
    ∃ fs2, w.flush fs = .ok (fs2, false) ∧ fsRead fs2 w.output_path = none := by
  unfold FGBWriter.flush fsRemoveFile
  rw [hw]
  cases hfind : fs.files.find? (fun p => p.1 == w.output_path) with
  | some a =>
    exact ⟨⟨fs.files.filter (fun p => p.1 != w.output_path)⟩,
      by simp [hfind], by simp [fsRead, mapGet, find_erase]⟩
  | none =>
    exact ⟨fs, by simp [hfind], by simp [fsRead, mapGet, hfind]⟩

/-- Helper: flushing after at least one record serializes the buffers and
reports `true`. -/
theorem flush_with_features (w : FGBWriter) (fs : FS) (hw : w.has_features = true) :
    w.flush fs = .ok (fsWrite fs w.output_path w.buffer, true) := by
  unfold FGBWriter.flush
  rw [hw]
  rfl

/-- C5: `FGBWriter.flush` after zero appended records does not error: it
removes the output file (an already-absent file counts as success) and
returns `false`; after at least one appended record it serializes the buffers
to the output file and returns `true`. -/
theorem C5_flush_zero_records :
    (∀ (w : FGBWriter) fs, w.has_features = false →
      ∃ fs2, w.flush fs = .ok (fs2, false) ∧ fsRead fs2 w.output_path = none) ∧
    (∀ (w : FGBWriter) fs, w.has_features = true →
      w.flush fs = .ok (fsWrite fs w.output_path w.buffer, true)) ∧
    (∀ (path : String) (fs : FS) (batches : List (List Feature)),
      batches.flatMap (fun b => b) = [] →
      ∃ fs2, ((batches.foldl FGBWriter.add_features (FGBWriter.new path fs).1).flush
          (FGBWriter.new path fs).2) = .ok (fs2, false) ∧ fsRead fs2 path = none) ∧
    (∀ (path : String) (fs : FS) (batches : List (List Feature)),
      batches.flatMap (fun b => b) ≠ [] →
      ((batches.foldl FGBWriter.add_features (FGBWriter.new path fs).1).flush
          (FGBWriter.new path fs).2) =
        .ok (fsWrite (FGBWriter.new path fs).2 path (batches.flatMap (fun b => b)), true)) := by
  refine ⟨flush_no_features, flush_with_features, ?_, ?_⟩
  · intro path fs batches hflat
    obtain ⟨h1, h2, h3⟩ := fold_add_features_spec batches (FGBWriter.new path fs).1
    have hw : (batches.foldl FGBWriter.add_features (FGBWriter.new path fs).1).has_features
        = false := by
      rw [h3, hflat]; rfl
    obtain ⟨fs2, hf, hr⟩ := flush_no_features _ _ hw
    rw [h1] at hr
    exact ⟨fs2, hf, hr⟩
  · intro path fs batches hflat
    obtain ⟨h1, h2, h3⟩ := fold_add_features_spec batches (FGBWriter.new path fs).1
    have hw : (batches.foldl FGBWriter.add_features (FGBWriter.new path fs).1).has_features
        = true := by
      rw [h3]
      cases hcase : batches.flatMap (fun b => b) with
      | nil => exact absurd hcase hflat
      | cons a l => rfl
    have hfl := flush_with_features _ (FGBWriter.new path fs).2 hw
    rw [h1, h2] at hfl
    simpa using hfl

/-- Witness for C5 at a concrete path and record. -/
theorem C5_flush_zero_records_witness :
    (∃ fs2, (([] : List (List Feature)).foldl FGBWriter.add_features
        (FGBWriter.new "out.fgb" ⟨[]⟩).1).flush (FGBWriter.new "out.fgb" ⟨[]⟩).2
          = .ok (fs2, false) ∧ fsRead fs2 "out.fgb" = none) ∧
    ([[featW]].foldl FGBWriter.add_features (FGBWriter.new "out.fgb" ⟨[]⟩).1).flush
        (FGBWriter.new "out.fgb" ⟨[]⟩).2 =
      .ok (fsWrite (FGBWriter.new "out.fgb" ⟨[]⟩).2 "out.fgb" ([[featW]].flatMap (fun b => b)),
        true) := by
  constructor
  · exact C5_flush_zero_records.2.2.1 "out.fgb" ⟨[]⟩ [] rfl
  · exact C5_flush_zero_records.2.2.2 "out.fgb" ⟨[]⟩ [[featW]] (by simp)

/-- Helper: folding one path's items adds exactly its successfully read
documents to the counter, whatever their parse outcome. -/
theorem foldl_processItem_count (tri : Polygon → List Triangle)
    (T : String → String → ℚ × ℚ → Except String (ℚ × ℚ)) (opts : ParseOptions) :
    ∀ (items : List (Except String FileData)) (acc : Option (Nat × List Feature))
      (n : Nat) (f : List Feature),
      items.foldl (processItem tri T opts) acc = some (n, f) →
      ∃ n0 f0, acc = some (n0, f0) ∧ n = n0 + okCountItems items := by
  intro items
  induction items with
  | nil =>
    intro acc n f h
    exact ⟨n, f, h, by simp [okCountItems]⟩
  | cons i items ih =>
    intro acc n f h
    rw [List.foldl_cons] at h
    obtain ⟨n1, f1, hstep, hn⟩ := ih _ n f h
    cases acc with
    | none =>
      rw [show processItem tri T opts none i = none from rfl] at hstep
      exact Option.noConfusion hstep
    | some nf =>
      cases i with
      | error s =>
        rw [show processItem tri T opts (some nf) (.error s) = some nf from rfl] at hstep
        injection hstep with he
        refine ⟨nf.1, nf.2, by simp, ?_⟩
        have : nf.1 = n1 := congrArg Prod.fst he
        rw [hn, this]
        simp [okCountItems, List.countP_cons]
      | ok fd =>
        have hunfold : processItem tri T opts (some nf) (.ok fd) =
            match parse_xml_content tri T fd opts with
            | .ok parsed => some (nf.1 + 1, nf.2 ++ parsed.features)
            | .error (PErr.err _) => some (nf.1 + 1, nf.2)
            | .error (PErr.panicMsg _) => none := rfl
        rw [hunfold] at hstep
        cases hp : parse_xml_content tri T fd opts with
        | ok parsed =>
          rw [hp] at hstep
          injection hstep with he
          refine ⟨nf.1, nf.2, by simp, ?_⟩
          have h1 : nf.1 + 1 = n1 := congrArg Prod.fst he
          rw [hn, ← h1]
          simp [okCountItems, List.countP_cons]
          omega
        | error pe =>
          cases pe with
          | err e =>
            rw [hp] at hstep
            injection hstep with he
            refine ⟨nf.1, nf.2, by simp, ?_⟩
            have h1 : nf.1 + 1 = n1 := congrArg Prod.fst he
            rw [hn, ← h1]
            simp [okCountItems, List.countP_cons]
            omega
          | panicMsg m =>
            rw [hp] at hstep
            exact Option.noConfusion hstep

/-- Helper: the read counter splits along the input paths. -/
theorem okItemCount_cons (p : List (Except String FileData))
    (ps : List (List (Except String FileData))) :
    okItemCount (p :: ps) = okCountItems p + okItemCount ps := by
  simp [okItemCount, okCountItems, List.countP_append, Nat.add_comm]

/-- Helper: folding whole paths adds all their successfully read documents. -/
theorem foldl_paths_count (tri : Polygon → List Triangle)
    (T : String → String → ℚ × ℚ → Except String (ℚ × ℚ)) (opts : ParseOptions) :
    ∀ (inputs : List (List (Except String FileData))) (acc : Option (Nat × List Feature))
      (n : Nat) (f : List Feature),
      inputs.foldl (fun acc path => path.foldl (processItem tri T opts) acc) acc = some (n, f) →
      ∃ n0 f0, acc = some (n0, f0) ∧ n = n0 + okItemCount inputs := by
  intro inputs
  induction inputs with
  | nil =>
    intro acc n f h
    exact ⟨n, f, h, by simp [okItemCount]⟩
  | cons p ps ih =>
    intro acc n f h
    rw [List.foldl_cons] at h
    obtain ⟨n1, f1, hinner, hn⟩ := ih _ n f h
    obtain ⟨n0, f0, hacc, hcount⟩ := foldl_processItem_count tri T opts p acc n1 f1 hinner
    refine ⟨n0, f0, hacc, ?_⟩
    rw [hn, hcount, okItemCount_cons]
    omega

/-- C8 counterexample: a document that is read successfully but fails
parsing is still included in the count `process_files` returns (and `main`
prints): on one unparsable document the run returns a count of 1 while zero
documents contributed records to the output. -/
theorem C8_counterexample :
    process_files triEmpty T0 [[.ok ⟨"bad.xml", some badRoot⟩]] ⟨true, true⟩ = some (1, []) ∧
    contributedCount triEmpty T0 [[.ok ⟨"bad.xml", some badRoot⟩]] ⟨true, true⟩ = 0 ∧
    (1 : Nat) ≠ 0 := by
  refine ⟨by with_unfolding_all rfl, by with_unfolding_all rfl, by decide⟩

/-- C8 (amended): the count returned by `process_files` and printed by
`main` equals the number of XML documents successfully read from the input
archives — documents that fail parsing or produce zero records are included
in it. -/
theorem C8_count_is_read_count :
    ∀ tri T inputs (opts : ParseOptions) n feats,
      process_files tri T inputs opts = some (n, feats) → n = okItemCount inputs := by
  intro tri T inputs opts n feats h
  obtain ⟨n0, f0, hacc, hcount⟩ := foldl_paths_count tri T opts inputs (some (0, [])) n feats h
  injection hacc with he
  have : n0 = 0 := (congrArg Prod.fst he).symm
  omega

/-- Witness for the amended C8 at a concrete input batch. -/
theorem C8_count_is_read_count_witness :
    (1 : Nat) = okItemCount [[.ok ⟨"bad.xml", some badRoot⟩]] := by
  exact C8_count_is_read_count triEmpty T0 [[.ok ⟨"bad.xml", some badRoot⟩]] ⟨true, true⟩
    1 [] (by with_unfolding_all rfl)

/-- Helper: every error an `Except` fold can produce comes from its step. -/
theorem foldlM_error {ε α β : Type} (step : β → α → Except ε β) (P : ε → Prop)
    (hstep : ∀ acc a e, step acc a = .error e → P e) :
    ∀ (l : List α) (acc : β) (e : ε), l.foldlM step acc = .error e → P e := by
  intro l
  induction l with
  | nil =>
    intro acc e h
    simp [List.foldlM, pure, Except.pure] at h
  | cons a l ih =>
    intro acc e h
    rw [List.foldlM_cons] at h
    cases hs : step acc a with
    | error e0 =>
      rw [hs] at h
      have he : e0 = e := by simpa [Bind.bind, Except.bind] using h
      exact he ▸ hstep acc a e0 hs
    | ok acc2 =>
      rw [hs] at h
      simp only [Bind.bind, Except.bind] at h
      exact ih acc2 e h

/-- Helper: the only error the parcel-entry collection can raise is a
missing `idref` on a `形状` element. -/
theorem collect_err_shape (surfaces : List (String × MultiPolygon)) (fude : XNode) (e : Error)
    (h : collectFudeEntries surfaces fude = .error e) :
    e = .MissingAttribute "形状" "idref" := by
  unfold collectFudeEntries at h
  refine foldlM_error _ (fun e => e = Error.MissingAttribute "形状" "idref") ?_ _ _ e h
  intro acc a e0 hs
  by_cases ht : a.tagName = "形状"
  · simp only [ht, if_true, reduceIte] at hs
    cases ha : a.attr "idref" with
    | none => rw [ha] at hs; exact (Except.error.inj hs).symm
    | some idref => rw [ha] at hs; exact Except.noConfusion hs
  · simp only [ht, reduceIte] at hs
    exact Except.noConfusion hs

/-- Helper: the only outcomes of one parcel besides a record or a skip are
the structural errors and the representative-point panic; in particular no
numeric parse failure. -/
theorem parseFude_err (tri : Polygon → List Triangle) (surfaces : List (String × MultiPolygon))
    (common : CommonProperties) (opts : ParseOptions) (fude : XNode) (pe : PErr)
    (h : parseFude tri surfaces common opts fude = .error pe) :
    pe = .err (.MissingAttribute "筆" "id") ∨ pe = .err (.MissingAttribute "形状" "idref") ∨
    pe = .err (.MissingElement "地番") ∨ pe = .err (.MissingElement "geometry") ∨
    ∃ m, pe = .panicMsg m := by
  unfold parseFude at h
  simp only [Bind.bind, Except.bind] at h
  cases hid : fude.attr "id" with
  | none =>
    rw [hid] at h
    exact Or.inl (Except.error.inj h).symm
  | some fid =>
    rw [hid] at h
    dsimp only at h
    cases hcol : collectFudeEntries surfaces fude with
    | error e0 =>
      rw [hcol] at h
      dsimp only [liftE] at h
      have := collect_err_shape surfaces fude e0 hcol
      exact Or.inr (Or.inl (by rw [← Except.error.inj h, this]))
    | ok gp =>
      rw [hcol] at h
      dsimp only [liftE] at h
      cases hinc : opts.include_chikugai with
      | true =>
        rw [hinc] at h
        simp only [Bool.not_true, Bool.false_eq_true, reduceIte, pure, Except.pure] at h
        cases hg : gp.1 with
        | none =>
          rw [hg] at h
          exact Or.inr (Or.inr (Or.inr (Or.inl (Except.error.inj h).symm)))
        | some g =>
          rw [hg] at h
          dsimp only at h
          cases hp : point_on_surface tri g with
          | error m =>
            rw [hp] at h
            exact Or.inr (Or.inr (Or.inr (Or.inr ⟨m, (Except.error.inj h).symm⟩)))
          | ok p =>
            rw [hp] at h
            exact Except.noConfusion h
      | false =>
        rw [hinc] at h
        simp only [Bool.not_false, reduceIte] at h
        cases hchi : mapGet gp.2 "地番" with
        | none =>
          rw [hchi] at h
          exact Or.inr (Or.inr (Or.inl (Except.error.inj h).symm))
        | some ch =>
          rw [hchi] at h
          dsimp only at h
          cases hmark : (containsSub ch "地区外" || containsSub ch "別図") with
          | true =>
            rw [hmark] at h
            exact Except.noConfusion h
          | false =>
            rw [hmark] at h
            cases hg : gp.1 with
            | none =>
              rw [hg] at h
              exact Or.inr (Or.inr (Or.inr (Or.inl (Except.error.inj h).symm)))
            | some g =>
              rw [hg] at h
              dsimp only at h
              cases hp : point_on_surface tri g with
              | error m =>
                rw [hp] at h
                exact Or.inr (Or.inr (Or.inr (Or.inr ⟨m, (Except.error.inj h).symm⟩)))
              | ok p =>
                rw [hp] at h
                exact Except.noConfusion h

/-- Helper: `parse_features` only raises the per-parcel outcomes. -/
theorem parse_features_err_shape (tri : Polygon → List Triangle) (subject : XNode)
    (surfaces : List (String × MultiPolygon)) (common : CommonProperties)
    (opts : ParseOptions) (pe : PErr)
    (h : parse_features tri subject surfaces common opts = .error pe) :
    pe = .err (.MissingAttribute "筆" "id") ∨ pe = .err (.MissingAttribute "形状" "idref") ∨
    pe = .err (.MissingElement "地番") ∨ pe = .err (.MissingElement "geometry") ∨
    ∃ m, pe = .panicMsg m := by
  unfold parse_features at h
  refine foldlM_error _ (fun pe => pe = .err (.MissingAttribute "筆" "id") ∨
    pe = .err (.MissingAttribute "形状" "idref") ∨
    pe = .err (.MissingElement "地番") ∨ pe = .err (.MissingElement "geometry") ∨
    ∃ m, pe = .panicMsg m) ?_ _ _ pe h
  intro acc a pe0 hs
  simp only [Bind.bind, Except.bind] at hs
  cases hf : parseFude tri surfaces common opts a with
  | error e0 =>
    rw [hf] at hs
    have : e0 = pe0 := Except.error.inj hs
    exact this ▸ parseFude_err tri surfaces common opts a e0 hf
  | ok v =>
    rw [hf] at hs
    cases v with
    | some feat => exact Except.noConfusion hs
    | none => exact Except.noConfusion hs

/-- C6: for every emitted parcel record, each optional numeric-coded
attribute (`大字コード`, `丁目コード`, `小字コード`, `予備コード`) is the
`parseU32`-or-`none` of its collected text — unparseable text yields the
absent value — and `parse_features` never fails with a numeric parse error:
its error outcomes are only the structural ones. -/
theorem C6_optional_numeric_leniency :
    (∀ tri surfaces common (opts : ParseOptions) fude gp f,
      collectFudeEntries surfaces fude = .ok gp →
      parseFude tri surfaces common opts fude = .ok (some f) →
      (f.props.«大字コード» = (mapGet gp.2 "大字コード").bind parseU32 ∧
       f.props.«丁目コード» = (mapGet gp.2 "丁目コード").bind parseU32 ∧
       f.props.«小字コード» = (mapGet gp.2 "小字コード").bind parseU32 ∧
       f.props.«予備コード» = (mapGet gp.2 "予備コード").bind parseU32)) ∧
    (∀ tri subject surfaces common (opts : ParseOptions) e,
      parse_features tri subject surfaces common opts = .error (.err e) →
      (∀ s, e ≠ .ParseInt s) ∧ (∀ s, e ≠ .ParseFloat s)) := by
  constructor
  · intro tri surfaces common opts fude gp f hcol h
    unfold parseFude at h
    simp only [Bind.bind, Except.bind] at h
    cases hid : fude.attr "id" with
    | none => rw [hid] at h; exact Except.noConfusion h
    | some fid =>
      rw [hid] at h
      dsimp only at h
      rw [hcol] at h
      dsimp only [liftE] at h
      cases hinc : opts.include_chikugai with
      | true =>
        rw [hinc] at h
        simp only [Bool.not_true, Bool.false_eq_true, reduceIte, pure, Except.pure] at h
        cases hg : gp.1 with
        | none => rw [hg] at h; exact Except.noConfusion h
        | some g =>
          rw [hg] at h
          dsimp only at h
          cases hp : point_on_surface tri g with
          | error m => rw [hp] at h; exact Except.noConfusion h
          | ok p =>
            rw [hp] at h
            have hf2 := Option.some.inj (Except.ok.inj h)
            rw [← hf2]
            exact ⟨rfl, rfl, rfl, rfl⟩
      | false =>
        rw [hinc] at h
        simp only [Bool.not_false, reduceIte] at h
        cases hchi : mapGet gp.2 "地番" with
        | none => rw [hchi] at h; exact Except.noConfusion h
        | some ch =>
          rw [hchi] at h
          dsimp only at h
          cases hmark : (containsSub ch "地区外" || containsSub ch "別図") with
          | true =>
            rw [hmark] at h
            exact Option.noConfusion (Except.ok.inj h)
          | false =>
            rw [hmark] at h
            cases hg : gp.1 with
            | none => rw [hg] at h; exact Except.noConfusion h
            | some g =>
              rw [hg] at h
              dsimp only at h
              cases hp : point_on_surface tri g with
              | error m => rw [hp] at h; exact Except.noConfusion h
              | ok p =>
                rw [hp] at h
                have hf2 := Option.some.inj (Except.ok.inj h)
                rw [← hf2]
                exact ⟨rfl, rfl, rfl, rfl⟩
  · intro tri subject surfaces common opts e h
    rcases parse_features_err_shape tri subject surfaces common opts (.err e) h with
      h1 | h1 | h1 | h1 | ⟨m, h1⟩
    · have he := PErr.err.inj h1
      subst he
      exact ⟨fun s hs => Error.noConfusion hs, fun s hs => Error.noConfusion hs⟩
    · have he := PErr.err.inj h1
      subst he
      exact ⟨fun s hs => Error.noConfusion hs, fun s hs => Error.noConfusion hs⟩
    · have he := PErr.err.inj h1
      subst he
      exact ⟨fun s hs => Error.noConfusion hs, fun s hs => Error.noConfusion hs⟩
    · have he := PErr.err.inj h1
      subst he
      exact ⟨fun s hs => Error.noConfusion hs, fun s hs => Error.noConfusion hs⟩
    · exact PErr.noConfusion h1

/-- Witness for C6 at a parcel whose `大字コード` text `"12ab"` fails to
parse: the emitted record stores the attribute as absent. -/
theorem C6_optional_numeric_leniency_witness :
    (⟨⟨[⟨[⟨0, 0⟩], []⟩]⟩,
      ⟨"m", 1, "c", "任意座標系", none, "F1", none, none, none, none, none,
       none, none, none, none, some "1", none, none, 1/3, 1/3⟩⟩ : Feature).props.«大字コード» =
      (mapGet ((some ⟨[⟨[⟨0, 0⟩], []⟩]⟩,
        [("大字コード", "12ab"), ("地番", "1")]) :
          Option MultiPolygon × List (String × String)).2 "大字コード").bind parseU32 ∧
    (⟨⟨[⟨[⟨0, 0⟩], []⟩]⟩,
      ⟨"m", 1, "c", "任意座標系", none, "F1", none, none, none, none, none,
       none, none, none, none, some "1", none, none, 1/3, 1/3⟩⟩ : Feature).props.«丁目コード» =
      (mapGet [("大字コード", "12ab"), ("地番", "1")] "丁目コード").bind parseU32 := by
  have happ := C6_optional_numeric_leniency.1 triOne surfC6 commonCx ⟨true, true⟩ fudeC6
    (some ⟨[⟨[⟨0, 0⟩], []⟩]⟩, [("大字コード", "12ab"), ("地番", "1")])
    ⟨⟨[⟨[⟨0, 0⟩], []⟩]⟩,
      ⟨"m", 1, "c", "任意座標系", none, "F1", none, none, none, none, none,
       none, none, none, none, some "1", none, none, 1/3, 1/3⟩⟩
    (by with_unfolding_all rfl) (by with_unfolding_all rfl)
  exact ⟨happ.1, happ.2.1⟩

/-- Helper: an invariant preserved by every successful step of an `Except`
fold holds of its result. -/
theorem foldlM_ok_inv {ε α β : Type} (step : β → α → Except ε β) (Q : β → Prop)
    (hstep : ∀ acc a acc2, Q acc → step acc a = .ok acc2 → Q acc2) :
    ∀ (l : List α) (acc : β) (res : β), Q acc → l.foldlM step acc = .ok res → Q res := by
  intro l
  induction l with
  | nil =>
    intro acc res hq h
    have : acc = res := by simpa [List.foldlM, pure, Except.pure] using h
    exact this ▸ hq
  | cons a l ih =>
    intro acc res hq h
    rw [List.foldlM_cons] at h
    cases hs : step acc a with
    | error e => rw [hs] at h; simp [Bind.bind, Except.bind] at h
    | ok acc2 =>
      rw [hs] at h
      simp only [Bind.bind, Except.bind] at h
      exact ih acc2 res (hstep acc a acc2 hq hs) h

/-- Helper: a successful lookup value belongs to the map's values. -/
theorem mapGet_mem {α : Type} (m : List (String × α)) (k : String) (v : α)
    (h : mapGet m k = some v) : v ∈ m.map Prod.snd := by
  induction m with
  | nil => simp [mapGet] at h
  | cons a l ih =>
    by_cases hk : (a.1 == k)
    · simp only [mapGet, List.find?_cons, hk] at h
      simp only [List.map_cons, List.mem_cons]
      exact Or.inl (Option.some.inj h).symm
    · simp only [mapGet, List.find?_cons, hk] at h
      simp only [List.map_cons, List.mem_cons]
      exact Or.inr (ih h)

/-- Helper: every coordinate of a built ring is a stored curve coordinate. -/
theorem buildRing_mem (curves : List (String × Pt)) (b : XNode) (r : Ring)
    (h : buildRing curves b = .ok r) : ∀ p ∈ r, p ∈ curves.map Prod.snd := by
  unfold buildRing at h
  refine foldlM_ok_inv _ (fun acc => ∀ p ∈ acc, p ∈ curves.map Prod.snd) ?_ _ _ r (by simp) h
  intro acc a acc2 hq hs
  simp only [Bind.bind, Except.bind] at hs
  cases ha : a.attr "idref" with
  | none => rw [ha] at hs; exact Except.noConfusion hs
  | some cid =>
    rw [ha] at hs
    dsimp only at hs
    cases hc : mapGet curves cid with
    | none => rw [hc] at hs; exact Except.noConfusion hs
    | some c =>
      rw [hc] at hs
      have hacc : acc ++ [c] = acc2 := Except.ok.inj hs
      rw [← hacc]
      intro p hp
      rcases List.mem_append.mp hp with hp1 | hp2
      · exact hq p hp1
      · rw [List.mem_singleton.mp hp2]
        exact mapGet_mem curves cid c hc

/-- Helper: every coordinate of a parsed surface is a stored curve
coordinate. -/
theorem parseSurfaceOne_coords (curves : List (String × Pt)) (s : XNode) (sid : String)
    (mp : MultiPolygon) (h : parseSurfaceOne curves s = .ok (sid, mp)) :
    ∀ p ∈ mpCoords mp, p ∈ curves.map Prod.snd := by
  unfold parseSurfaceOne at h
  simp only [Bind.bind, Except.bind] at h
  cases hfp : firstPolygonOf s with
  | none => rw [hfp] at h; exact Except.noConfusion h
  | some poly =>
    rw [hfp] at h
    dsimp only at h
    cases hid : s.attr "id" with
    | none => rw [hid] at h; exact Except.noConfusion h
    | some sid0 =>
      rw [hid] at h
      dsimp only at h
      cases hext : poly.descendants.find?
          (fun c => c.tagName == "GM_SurfaceBoundary.exterior"
            && c.nsName == get_xml_namespace (some "zmn")) with
      | none => rw [hext] at h; exact Except.noConfusion h
      | some ext =>
        rw [hext] at h
        dsimp only at h
        cases hbr : buildRing curves ext with
        | error e => rw [hbr] at h; exact Except.noConfusion h
        | ok extRing =>
          rw [hbr] at h
          dsimp only at h
          split at h
          next e hint => exact Except.noConfusion h
          next irs hint =>
            have hmp := congrArg Prod.snd (Except.ok.inj h)
            dsimp only at hmp
            have hirs : ∀ ring ∈ irs, ∀ p ∈ ring, p ∈ curves.map Prod.snd := by
              refine foldlM_ok_inv _
                (fun acc => ∀ ring ∈ acc, ∀ p ∈ ring, p ∈ curves.map Prod.snd) ?_
                _ _ irs (by simp) hint
              intro acc a acc2 hq hs
              cases hb2 : buildRing curves a with
              | error e2 => rw [hb2] at hs; exact Except.noConfusion hs
              | ok r2 =>
                rw [hb2] at hs
                have hacc : acc ++ [r2] = acc2 := Except.ok.inj hs
                rw [← hacc]
                intro ring hring
                rcases List.mem_append.mp hring with h1 | h2
                · exact hq ring h1
                · rw [List.mem_singleton.mp h2]
                  exact buildRing_mem curves a r2 hb2
            rw [← hmp]
            intro p hp
            simp only [mpCoords, List.flatMap_cons, List.flatMap_nil, List.append_nil,
              List.mem_append] at hp
            rcases hp with hp1 | hp2
            · exact buildRing_mem curves ext extRing hbr p hp1
            · simp only [List.mem_flatMap] at hp2
              obtain ⟨ring, hring, hpring⟩ := hp2
              exact hirs ring hring p hpring

/-- Helper: every coordinate of every surface in the surface mapping is a
stored curve coordinate. -/
theorem parse_surfaces_coords (spatial : XNode) (curves : List (String × Pt))
    (m : List (String × MultiPolygon)) (h : parse_surfaces spatial curves = .ok m) :
    ∀ s ∈ m.map Prod.snd, ∀ p ∈ mpCoords s, p ∈ curves.map Prod.snd := by
  unfold parse_surfaces at h
  refine foldlM_ok_inv _
    (fun acc => ∀ s ∈ acc.map Prod.snd, ∀ p ∈ mpCoords s, p ∈ curves.map Prod.snd) ?_
    _ _ m (by simp) h
  intro acc a acc2 hq hs
  simp only [Bind.bind, Except.bind] at hs
  cases hone : parseSurfaceOne curves a with
  | error e => rw [hone] at hs; exact Except.noConfusion hs
  | ok kv =>
    rw [hone] at hs
    have hacc : mapInsert acc kv.1 kv.2 = acc2 := Except.ok.inj hs
    rw [← hacc]
    intro s hsmem
    simp only [mapInsert, List.map_cons, List.mem_cons] at hsmem
    rcases hsmem with h1 | h2
    · rw [h1]
      exact parseSurfaceOne_coords curves a kv.1 kv.2 (by rw [hone])
    · exact hq s h2

/-- Helper: the geometry collected for a parcel, when present, comes from the
surface mapping's values. -/
theorem collect_geometry_mem (surfaces : List (String × MultiPolygon)) (fude : XNode)
    (gp : Option MultiPolygon × List (String × String))
    (h : collectFudeEntries surfaces fude = .ok gp) :
    gp.1 = none ∨ ∃ g, gp.1 = some g ∧ g ∈ surfaces.map Prod.snd := by
  unfold collectFudeEntries at h
  refine foldlM_ok_inv _
    (fun acc => acc.1 = none ∨ ∃ g, acc.1 = some g ∧ g ∈ surfaces.map Prod.snd) ?_
    _ _ gp (Or.inl rfl) h
  intro acc a acc2 hq hs
  by_cases ht : a.tagName = "形状"
  · simp only [ht, reduceIte] at hs
    cases ha : a.attr "idref" with
    | none => rw [ha] at hs; exact Except.noConfusion hs
    | some idref =>
      rw [ha] at hs
      dsimp only at hs
      have hacc : (mapGet surfaces idref, acc.2) = acc2 := Except.ok.inj hs
      rw [← hacc]
      cases hg : mapGet surfaces idref with
      | none => exact Or.inl rfl
      | some g => exact Or.inr ⟨g, rfl, mapGet_mem surfaces idref g hg⟩
  · simp only [ht, reduceIte] at hs
    have hacc : (acc.1, mapInsert acc.2 a.tagName ((a.textOf).getD "")) = acc2 :=
      Except.ok.inj hs
    rw [← hacc]
    exact hq

/-- Helper: an emitted parcel's geometry is the one its entry collection
resolved. -/
theorem parseFude_geometry (tri : Polygon → List Triangle)
    (surfaces : List (String × MultiPolygon)) (common : CommonProperties)
    (opts : ParseOptions) (fude : XNode) (f : Feature)
    (h : parseFude tri surfaces common opts fude = .ok (some f)) :
    ∃ gp, collectFudeEntries surfaces fude = .ok gp ∧ gp.1 = some f.geometry := by
  unfold parseFude at h
  simp only [Bind.bind, Except.bind] at h
  cases hid : fude.attr "id" with
  | none => rw [hid] at h; exact Except.noConfusion h
  | some fid =>
    rw [hid] at h
    dsimp only at h
    cases hcol : collectFudeEntries surfaces fude with
    | error e => rw [hcol] at h; dsimp only [liftE] at h; exact Except.noConfusion h
    | ok gp =>
      rw [hcol] at h
      dsimp only [liftE] at h
      refine ⟨gp, rfl, ?_⟩
      cases hinc : opts.include_chikugai with
      | true =>
        rw [hinc] at h
        simp only [Bool.not_true, Bool.false_eq_true, reduceIte, pure, Except.pure] at h
        cases hg : gp.1 with
        | none => rw [hg] at h; exact Except.noConfusion h
        | some g =>
          rw [hg] at h
          dsimp only at h
          cases hp : point_on_surface tri g with
          | error m => rw [hp] at h; exact Except.noConfusion h
          | ok p =>
            rw [hp] at h
            have hf2 := Option.some.inj (Except.ok.inj h)
            rw [← hf2]
      | false =>
        rw [hinc] at h
        simp only [Bool.not_false, reduceIte] at h
        cases hchi : mapGet gp.2 "地番" with
        | none => rw [hchi] at h; exact Except.noConfusion h
        | some ch =>
          rw [hchi] at h
          dsimp only at h
          cases hmark : (containsSub ch "地区外" || containsSub ch "別図") with
          | true =>
            rw [hmark] at h
            exact Option.noConfusion (Except.ok.inj h)
          | false =>
            rw [hmark] at h
            cases hg : gp.1 with
            | none => rw [hg] at h; exact Except.noConfusion h
            | some g =>
              rw [hg] at h
              dsimp only at h
              cases hp : point_on_surface tri g with
              | error m => rw [hp] at h; exact Except.noConfusion h
              | ok p =>
                rw [hp] at h
                have hf2 := Option.some.inj (Except.ok.inj h)
                rw [← hf2]

/-- Helper: the geometry of every emitted record comes from the surface
mapping's values. -/
theorem parse_features_geometry_mem (tri : Polygon → List Triangle) (subject : XNode)
    (surfaces : List (String × MultiPolygon)) (common : CommonProperties)
    (opts : ParseOptions) (l : List Feature)
    (h : parse_features tri subject surfaces common opts = .ok l) :
    ∀ f ∈ l, f.geometry ∈ surfaces.map Prod.snd := by
  unfold parse_features at h
  refine foldlM_ok_inv _
    (fun acc => ∀ f ∈ acc, f.geometry ∈ surfaces.map Prod.snd) ?_ _ _ l (by simp) h
  intro acc a acc2 hq hs
  simp only [Bind.bind, Except.bind] at hs
  cases hf : parseFude tri surfaces common opts a with
  | error e => rw [hf] at hs; exact Except.noConfusion hs
  | ok v =>
    rw [hf] at hs
    cases v with
    | none =>
      have hacc : acc = acc2 := Except.ok.inj hs
      rw [← hacc]
      exact hq
    | some feat =>
      have hacc : acc ++ [feat] = acc2 := Except.ok.inj hs
      rw [← hacc]
      intro f hfm
      rcases List.mem_append.mp hfm with h1 | h2
      · exact hq f h1
      · rw [List.mem_singleton.mp h2]
        obtain ⟨gp, hcol, hg⟩ := parseFude_geometry tri surfaces common opts a feat hf
        rcases collect_geometry_mem surfaces a gp hcol with hnone | ⟨g, hgs, hmem⟩
        · rw [hnone] at hg; exact Option.noConfusion hg
        · rw [hgs] at hg
          rw [← Option.some.inj hg]
          exact hmem

/-- C4: for a document whose coordinate-system name is the arbitrary
sentinel: with arbitrary-CRS inclusion disabled, `parse_xml_content` returns
an empty feature list without error; with it enabled, no transform is applied
and every coordinate of every output geometry is one of the (swapped-axis)
coordinates stored by `parse_curves`. -/
theorem C4_arbitrary_crs_passthrough :
    (∀ tri T fd root (opts : ParseOptions) cp,
      fd.root = some root →
      parse_common_properties root = .ok cp →
      textOfE root "座標系" = .ok "任意座標系" →
      opts.include_arbitrary_crs = false →
      parse_xml_content tri T fd opts = .ok ⟨fd.file_name, []⟩) ∧
    (∀ tri T fd root (opts : ParseOptions) parsed,
      fd.root = some root →
      textOfE root "座標系" = .ok "任意座標系" →
      opts.include_arbitrary_crs = true →
      parse_xml_content tri T fd opts = .ok parsed →
      ∃ spatial points curves,
        get_child_element root "空間属性" = .ok spatial ∧
        parse_points spatial = .ok points ∧
        parse_curves spatial points = .ok curves ∧
        ∀ f ∈ parsed.features, ∀ p ∈ mpCoords f.geometry, p ∈ curves.map Prod.snd) := by
  constructor
  · intro tri T fd root opts cp hroot hcp hcrs harb
    unfold parse_xml_content
    rw [hroot]
    simp only [Bind.bind, Except.bind]
    rw [hcp]
    dsimp only
    rw [hcrs]
    dsimp only [liftE]
    rw [show get_proj "任意座標系" = .ok none from rfl]
    dsimp only [liftE]
    rw [harb]
    rfl
  · intro tri T fd root opts parsed hroot hcrs harb h
    unfold parse_xml_content at h
    rw [hroot] at h
    simp only [Bind.bind, Except.bind] at h
    cases hcp : parse_common_properties root with
    | error e => rw [hcp] at h; exact Except.noConfusion h
    | ok cp =>
      rw [hcp] at h
      dsimp only at h
      rw [hcrs] at h
      dsimp only [liftE] at h
      rw [show get_proj "任意座標系" = .ok none from rfl] at h
      dsimp only [liftE] at h
      rw [harb] at h
      simp only [Option.isNone_none, Bool.not_true, Bool.and_false, Bool.true_and,
        Bool.false_eq_true, reduceIte] at h
      cases hsp : get_child_element root "空間属性" with
      | error e => rw [hsp] at h; dsimp only [liftE] at h; exact Except.noConfusion h
      | ok spatial =>
        rw [hsp] at h
        dsimp only [liftE] at h
        cases hpts : parse_points spatial with
        | error e => rw [hpts] at h; dsimp only [liftE] at h; exact Except.noConfusion h
        | ok points =>
          rw [hpts] at h
          dsimp only [liftE] at h
          cases hcur : parse_curves spatial points with
          | error e => rw [hcur] at h; dsimp only [liftE] at h; exact Except.noConfusion h
          | ok curves =>
            rw [hcur] at h
            dsimp only [liftE, pure, Except.pure] at h
            cases hsf : parse_surfaces spatial curves with
            | error e => rw [hsf] at h; dsimp only [liftE] at h; exact Except.noConfusion h
            | ok surfaces =>
              rw [hsf] at h
              dsimp only [liftE] at h
              cases hsub : get_child_element root "主題属性" with
              | error e => rw [hsub] at h; dsimp only [liftE] at h; exact Except.noConfusion h
              | ok subject =>
                rw [hsub] at h
                dsimp only [liftE] at h
                cases hfeat : parse_features tri subject surfaces cp opts with
                | error e => rw [hfeat] at h; exact Except.noConfusion h
                | ok feats =>
                  rw [hfeat] at h
                  have hp2 := Except.ok.inj h
                  refine ⟨spatial, points, curves, rfl, hpts, hcur, ?_⟩
                  have hfe : parsed.features = feats := by
                    rw [← hp2]
                  intro f hf p hp
                  exact parse_surfaces_coords spatial curves surfaces hsf f.geometry
                    (parse_features_geometry_mem tri subject surfaces cp opts feats hfeat f
                      (hfe ▸ hf)) p hp

/-- Witness for C4 on the sample arbitrary-CRS document. -/
theorem C4_arbitrary_crs_passthrough_witness :
    parse_xml_content triOne T0 ⟨"a.xml", some sampleRoot⟩ ⟨false, true⟩ =
      .ok ⟨"a.xml", []⟩ ∧
    (∃ spatial points curves,
      get_child_element sampleRoot "空間属性" = .ok spatial ∧
      parse_points spatial = .ok points ∧
      parse_curves spatial points = .ok curves ∧
      ∀ f ∈ (⟨"a.xml",
        [⟨⟨[⟨[⟨139, 35⟩], []⟩]⟩,
          ⟨"地図A", 46505, "市A", "任意座標系", none, "F1", none, none, none, none, none,
           none, none, none, none, some "1", none, none, 1/3, 1/3⟩⟩]⟩ : ParsedXML).features,
        ∀ p ∈ mpCoords f.geometry, p ∈ curves.map Prod.snd) := by
  constructor
  · exact C4_arbitrary_crs_passthrough.1 triOne T0 ⟨"a.xml", some sampleRoot⟩ sampleRoot
      ⟨false, true⟩ ⟨"地図A", 46505, "市A", "任意座標系", none⟩
      rfl (by with_unfolding_all rfl) (by with_unfolding_all rfl) rfl
  · exact C4_arbitrary_crs_passthrough.2 triOne T0 ⟨"a.xml", some sampleRoot⟩ sampleRoot
      ⟨true, true⟩
      ⟨"a.xml",
        [⟨⟨[⟨[⟨139, 35⟩], []⟩]⟩,
          ⟨"地図A", 46505, "市A", "任意座標系", none, "F1", none, none, none, none, none,
           none, none, none, none, some "1", none, none, 1/3, 1/3⟩⟩]⟩
      rfl (by with_unfolding_all rfl) rfl (by with_unfolding_all rfl)

end Mojxml
